import Mathlib

set_option linter.unusedVariables false
set_option linter.unreachableTactic false
set_option linter.unusedTactic false
set_option maxRecDepth 2000

/-!
Shallow embedding of the byte-code virtual machine in `vm.py`.

The machine state (`VMState`) mirrors the fields of the Python `VM` class:
a byte `memory` (a `List Nat`, each entry a byte), 16 registers (`regs`),
an integer program counter `pc`, an integer stack pointer `sp`, a `running`
flag and the list of diagnostics printed so far (`output`, each entry the
pair of the unknown opcode and the address reported by the `print` call).

Python-level operations that the VM relies on (byte-string slicing with
negative indices, `bytearray` slice assignment, `struct.unpack`/`struct.pack`
on 4-byte big-endian words, list indexing) are embedded faithfully,
including their failure modes: `struct` functions fail unless given exactly
four bytes (`PyErr.structError`), and indexing an empty slice fails
(`PyErr.indexError`).  A handler returns `Except PyErr VMState`; an `.error`
result models an uncaught Python exception aborting execution.
-/

/-- Errors raised by the Python runtime while the VM executes:
`structError` models `struct.error` (wrong buffer size for `unpack`, value
out of range for `pack`), `indexError` models `IndexError` from indexing. -/
inductive PyErr where
  | structError
  | indexError
deriving DecidableEq, Repr

/-- Normalisation of one Python slice index against a sequence of length
`len`: a negative index counts from the end (clamped below at 0), a
non-negative index is clamped above at `len`. -/
def pySliceIdx (len : Nat) (i : Int) : Nat :=
  if i < 0 then (i + len).toNat else min i.toNat len

/-- Python slice read `m[i:j]` (step 1): the elements with positions in
`[pySliceIdx len i, pySliceIdx len j)`. -/
def pySlice (m : List Nat) (i j : Int) : List Nat :=
  (m.take (pySliceIdx m.length j)).drop (pySliceIdx m.length i)

/-- Python `bytearray` slice assignment `m[i:j] = data` (step 1): the
elements in the normalised range are replaced by `data`; the sequence grows
or shrinks when `data` has a different length than the range. -/
def pySetSlice (m : List Nat) (i j : Int) (data : List Nat) : List Nat :=
  let a := pySliceIdx m.length i
  let b := max (pySliceIdx m.length j) a
  m.take a ++ data ++ m.drop b

/-- Python sequence indexing `l[i]` for a non-negative index: raises
`IndexError` when out of range. -/
def pyGet (l : List Nat) (i : Nat) : Except PyErr Nat :=
  if h : i < l.length then .ok (l.get ⟨i, h⟩) else .error .indexError

/-- `read_u32_be(b)`: `struct.unpack(">I", b)` — requires exactly four
bytes, returns the big-endian unsigned value. -/
def read_u32_be (b : List Nat) : Except PyErr Nat :=
  match b with
  | [b0, b1, b2, b3] => .ok (((b0 * 256 + b1) * 256 + b2) * 256 + b3)
  | _ => .error .structError

/-- `read_s32_be(b)`: `struct.unpack(">i", b)` — requires exactly four
bytes, returns the big-endian two's-complement signed value. -/
def read_s32_be (b : List Nat) : Except PyErr Int :=
  match b with
  | [b0, b1, b2, b3] =>
      let u := ((b0 * 256 + b1) * 256 + b2) * 256 + b3
      .ok (if u < 2 ^ 31 then (u : Int) else (u : Int) - 2 ^ 32)
  | _ => .error .structError

/-- `struct.pack(">I", v)`: the four big-endian bytes of `v`; raises
`struct.error` when `v` is not in `[0, 2^32)` (matching on the `Int`
constructor keeps the range test reducible). -/
def pack_u32 (v : Int) : Except PyErr (List Nat) :=
  match v with
  | .ofNat n =>
    if n < 2 ^ 32 then .ok [n / 2 ^ 24 % 256, n / 2 ^ 16 % 256, n / 2 ^ 8 % 256, n % 256]
    else .error .structError
  | .negSucc _ => .error .structError

/-- The four bytes produced by an in-range `struct.pack(">I", v)`. -/
def packBytes (v : Int) : List Nat :=
  [v.toNat / 2 ^ 24 % 256, v.toNat / 2 ^ 16 % 256, v.toNat / 2 ^ 8 % 256, v.toNat % 256]

/-- `clamp_reg(r)`: clamp a register index to 14 (`min(r, 14)`). -/
def clamp_reg (r : Nat) : Nat :=
  min r 14

/-- `NUM_REGS = 16`. -/
def NUM_REGS : Nat := 16

/-- `ACC = 15`: the accumulator register index. -/
def ACC : Nat := 15

/-- `MEM_SIZE = 2**20`: the default memory capacity in bytes. -/
def MEM_SIZE : Nat := 2 ^ 20

/-- The state of the Python `VM` object. -/
structure VMState where
  memory : List Nat
  regs : List Nat
  pc : Int
  sp : Int
  running : Bool
  output : List (Nat × Int)
deriving DecidableEq, Repr

/-- `self.regs[i]` (registers always have 16 entries in a real VM, so the
default value is never consulted there). -/
def getReg (s : VMState) (i : Nat) : Nat :=
  s.regs.getD i 0

/-- `VM.__init__(memory_size)`: zeroed memory and registers, `pc = 0`,
`sp = memory_size`, running, nothing printed. -/
def VM_init (memory_size : Nat) : VMState :=
  { memory := List.replicate memory_size 0
    regs := List.replicate NUM_REGS 0
    pc := 0
    sp := memory_size
    running := true
    output := [] }

/-- Two's-complement 32-bit masking of a Python int (`x & 0xFFFFFFFF`
where `x` may be negative): the representative of `x` modulo `2^32`. -/
def mask32 (x : Int) : Nat :=
  (x % (2 ^ 32 : Int)).toNat

/-- `op_ld`: register(B) ← memory word at the address in field A. -/
def op_ld (s : VMState) (a b : List Nat) : Except PyErr VMState :=
  match read_u32_be a with
  | .error e => .error e
  | .ok addr =>
    match pyGet b 3 with
    | .error e => .error e
    | .ok rb =>
      match read_u32_be (pySlice s.memory addr (addr + 4)) with
      | .error e => .error e
      | .ok v => .ok { s with regs := s.regs.set (clamp_reg rb) v }

/-- `op_lc`: register(B) ← the literal constant in field A. -/
def op_lc (s : VMState) (a b : List Nat) : Except PyErr VMState :=
  match read_u32_be a with
  | .error e => .error e
  | .ok const =>
    match pyGet b 3 with
    | .error e => .error e
    | .ok rb => .ok { s with regs := s.regs.set (clamp_reg rb) const }

/-- `op_dr`: memory word at the address in field B ← register(A). -/
def op_dr (s : VMState) (a b : List Nat) : Except PyErr VMState :=
  match pyGet a 3 with
  | .error e => .error e
  | .ok ra =>
    match read_u32_be b with
    | .error e => .error e
    | .ok addr =>
      match pack_u32 (getReg s (clamp_reg ra) : Int) with
      | .error e => .error e
      | .ok data => .ok { s with memory := pySetSlice s.memory addr (addr + 4) data }

/-- `op_cpy`: register(B) ← register(A). -/
def op_cpy (s : VMState) (a b : List Nat) : Except PyErr VMState :=
  match pyGet a 3 with
  | .error e => .error e
  | .ok ra =>
    match pyGet b 3 with
    | .error e => .error e
    | .ok rb => .ok { s with regs := s.regs.set (clamp_reg rb) (getReg s (clamp_reg ra)) }

/-- `op_or`: accumulator ← register(A) | register(B). -/
def op_or (s : VMState) (a b : List Nat) : Except PyErr VMState :=
  match pyGet a 3 with
  | .error e => .error e
  | .ok ra =>
    match pyGet b 3 with
    | .error e => .error e
    | .ok rb =>
      .ok { s with regs := s.regs.set ACC (getReg s (clamp_reg ra) ||| getReg s (clamp_reg rb)) }

/-- `op_and`: accumulator ← register(A) & register(B). -/
def op_and (s : VMState) (a b : List Nat) : Except PyErr VMState :=
  match pyGet a 3 with
  | .error e => .error e
  | .ok ra =>
    match pyGet b 3 with
    | .error e => .error e
    | .ok rb =>
      .ok { s with regs := s.regs.set ACC (getReg s (clamp_reg ra) &&& getReg s (clamp_reg rb)) }

/-- `op_xor`: accumulator ← register(A) ^ register(B). -/
def op_xor (s : VMState) (a b : List Nat) : Except PyErr VMState :=
  match pyGet a 3 with
  | .error e => .error e
  | .ok ra =>
    match pyGet b 3 with
    | .error e => .error e
    | .ok rb =>
      .ok { s with regs := s.regs.set ACC (getReg s (clamp_reg ra) ^^^ getReg s (clamp_reg rb)) }

/-- `op_nand`: accumulator ← ~(register(A) & register(B)) & 0xFFFFFFFF. -/
def op_nand (s : VMState) (a b : List Nat) : Except PyErr VMState :=
  match pyGet a 3 with
  | .error e => .error e
  | .ok ra =>
    match pyGet b 3 with
    | .error e => .error e
    | .ok rb =>
      .ok { s with regs := s.regs.set ACC (mask32 (-(getReg s (clamp_reg ra) &&& getReg s (clamp_reg rb) : Int) - 1)) }

/-- `op_nor`: accumulator ← ~(register(A) | register(B)) & 0xFFFFFFFF. -/
def op_nor (s : VMState) (a b : List Nat) : Except PyErr VMState :=
  match pyGet a 3 with
  | .error e => .error e
  | .ok ra =>
    match pyGet b 3 with
    | .error e => .error e
    | .ok rb =>
      .ok { s with regs := s.regs.set ACC (mask32 (-(getReg s (clamp_reg ra) ||| getReg s (clamp_reg rb) : Int) - 1)) }

/-- `op_not`: accumulator ← ~register(A) & 0xFFFFFFFF. -/
def op_not (s : VMState) (a b : List Nat) : Except PyErr VMState :=
  match pyGet a 3 with
  | .error e => .error e
  | .ok ra =>
    .ok { s with regs := s.regs.set ACC (mask32 (-(getReg s (clamp_reg ra) : Int) - 1)) }

/-- `op_add`: accumulator ← (register(A) + register(B)) & 0xFFFFFFFF. -/
def op_add (s : VMState) (a b : List Nat) : Except PyErr VMState :=
  match pyGet a 3 with
  | .error e => .error e
  | .ok ra =>
    match pyGet b 3 with
    | .error e => .error e
    | .ok rb =>
      .ok { s with regs := s.regs.set ACC ((getReg s (clamp_reg ra) + getReg s (clamp_reg rb)) % 2 ^ 32) }

/-- `op_sub`: accumulator ← (register(A) - register(B)) & 0xFFFFFFFF. -/
def op_sub (s : VMState) (a b : List Nat) : Except PyErr VMState :=
  match pyGet a 3 with
  | .error e => .error e
  | .ok ra =>
    match pyGet b 3 with
    | .error e => .error e
    | .ok rb =>
      .ok { s with regs := s.regs.set ACC (mask32 ((getReg s (clamp_reg ra) : Int) - getReg s (clamp_reg rb))) }

/-- `op_mul`: accumulator ← (register(A) * register(B)) & 0xFFFFFFFF. -/
def op_mul (s : VMState) (a b : List Nat) : Except PyErr VMState :=
  match pyGet a 3 with
  | .error e => .error e
  | .ok ra =>
    match pyGet b 3 with
    | .error e => .error e
    | .ok rb =>
      .ok { s with regs := s.regs.set ACC ((getReg s (clamp_reg ra) * getReg s (clamp_reg rb)) % 2 ^ 32) }

/-- `op_div`: accumulator ← register(A) // max(register(B), 1). -/
def op_div (s : VMState) (a b : List Nat) : Except PyErr VMState :=
  match pyGet a 3 with
  | .error e => .error e
  | .ok ra =>
    match pyGet b 3 with
    | .error e => .error e
    | .ok rb =>
      .ok { s with regs := s.regs.set ACC (getReg s (clamp_reg ra) / max (getReg s (clamp_reg rb)) 1) }

/-- `op_exp`: accumulator ← pow(register(A), register(B), 2**32). -/
def op_exp (s : VMState) (a b : List Nat) : Except PyErr VMState :=
  match pyGet a 3 with
  | .error e => .error e
  | .ok ra =>
    match pyGet b 3 with
    | .error e => .error e
    | .ok rb =>
      .ok { s with regs := s.regs.set ACC (getReg s (clamp_reg ra) ^ getReg s (clamp_reg rb) % 2 ^ 32) }

/-- `op_jmp`: pc ← the absolute address in field A. -/
def op_jmp (s : VMState) (a b : List Nat) : Except PyErr VMState :=
  match read_u32_be a with
  | .error e => .error e
  | .ok addr => .ok { s with pc := (addr : Int) }

/-- `op_jmr`: pc ← pc + the signed offset in field A. -/
def op_jmr (s : VMState) (a b : List Nat) : Except PyErr VMState :=
  match read_s32_be a with
  | .error e => .error e
  | .ok offset => .ok { s with pc := s.pc + offset }

/-- `op_cmp`: if register(A) ≠ 0 then pc ← the absolute address in field B. -/
def op_cmp (s : VMState) (a b : List Nat) : Except PyErr VMState :=
  match pyGet a 3 with
  | .error e => .error e
  | .ok ra =>
    match read_u32_be b with
    | .error e => .error e
    | .ok addr =>
      if getReg s (clamp_reg ra) ≠ 0 then .ok { s with pc := (addr : Int) } else .ok s

/-- `op_cmr`: if register(A) ≠ 0 then pc ← pc + the signed offset in field B. -/
def op_cmr (s : VMState) (a b : List Nat) : Except PyErr VMState :=
  match pyGet a 3 with
  | .error e => .error e
  | .ok ra =>
    match read_s32_be b with
    | .error e => .error e
    | .ok offset =>
      if getReg s (clamp_reg ra) ≠ 0 then .ok { s with pc := s.pc + offset } else .ok s

/-- `op_psh`: sp ← sp - 4; memory word at sp ← register(A). -/
def op_psh (s : VMState) (a b : List Nat) : Except PyErr VMState :=
  match pyGet a 3 with
  | .error e => .error e
  | .ok ra =>
    match pack_u32 (getReg s (clamp_reg ra) : Int) with
    | .error e => .error e
    | .ok data =>
      .ok { s with sp := s.sp - 4, memory := pySetSlice s.memory (s.sp - 4) (s.sp - 4 + 4) data }

/-- `op_pop`: register(A) ← memory word at sp; sp ← sp + 4. -/
def op_pop (s : VMState) (a b : List Nat) : Except PyErr VMState :=
  match pyGet a 3 with
  | .error e => .error e
  | .ok ra =>
    match read_u32_be (pySlice s.memory s.sp (s.sp + 4)) with
    | .error e => .error e
    | .ok v => .ok { s with regs := s.regs.set (clamp_reg ra) v, sp := s.sp + 4 }

/-- `op_movsp`: sp ← sp + the signed offset in field A. -/
def op_movsp (s : VMState) (a b : List Nat) : Except PyErr VMState :=
  match read_s32_be a with
  | .error e => .error e
  | .ok offset => .ok { s with sp := s.sp + offset }

/-- `op_call`: sp ← sp - 4; memory word at sp ← pc (already advanced past
the CALL); pc ← the absolute address in field A. -/
def op_call (s : VMState) (a b : List Nat) : Except PyErr VMState :=
  match read_u32_be a with
  | .error e => .error e
  | .ok addr =>
    match pack_u32 s.pc with
    | .error e => .error e
    | .ok data =>
      .ok { s with sp := s.sp - 4
                   memory := pySetSlice s.memory (s.sp - 4) (s.sp - 4 + 4) data
                   pc := (addr : Int) }

/-- `op_ret`: pc ← memory word at sp; sp ← sp + 4. -/
def op_ret (s : VMState) (a b : List Nat) : Except PyErr VMState :=
  match read_u32_be (pySlice s.memory s.sp (s.sp + 4)) with
  | .error e => .error e
  | .ok v => .ok { s with pc := (v : Int), sp := s.sp + 4 }

/-- `_set_acc`: accumulator ← 0xFFFFFFFF when the condition holds, else 0. -/
def set_acc (s : VMState) (cond : Bool) : VMState :=
  { s with regs := s.regs.set ACC (if cond then 0xFFFFFFFF else 0) }

/-- `op_gt`: accumulator ← all-ones when register(A) is greater than register(B). -/
def op_gt (s : VMState) (a b : List Nat) : Except PyErr VMState :=
  match pyGet a 3 with
  | .error e => .error e
  | .ok ra =>
    match pyGet b 3 with
    | .error e => .error e
    | .ok rb => .ok (set_acc s (decide (getReg s (clamp_reg ra) > getReg s (clamp_reg rb))))

/-- `op_lt`: accumulator ← all-ones when register(A) is less than register(B). -/
def op_lt (s : VMState) (a b : List Nat) : Except PyErr VMState :=
  match pyGet a 3 with
  | .error e => .error e
  | .ok ra =>
    match pyGet b 3 with
    | .error e => .error e
    | .ok rb => .ok (set_acc s (decide (getReg s (clamp_reg ra) < getReg s (clamp_reg rb))))

/-- `op_eq`: accumulator ← all-ones when register(A) equals register(B). -/
def op_eq (s : VMState) (a b : List Nat) : Except PyErr VMState :=
  match pyGet a 3 with
  | .error e => .error e
  | .ok ra =>
    match pyGet b 3 with
    | .error e => .error e
    | .ok rb => .ok (set_acc s (decide (getReg s (clamp_reg ra) = getReg s (clamp_reg rb))))

/-- `op_ne`: accumulator ← all-ones when register(A) differs from register(B). -/
def op_ne (s : VMState) (a b : List Nat) : Except PyErr VMState :=
  match pyGet a 3 with
  | .error e => .error e
  | .ok ra =>
    match pyGet b 3 with
    | .error e => .error e
    | .ok rb => .ok (set_acc s (decide (getReg s (clamp_reg ra) ≠ getReg s (clamp_reg rb))))

/-- `op_ge`: accumulator ← all-ones when register(A) is at least register(B). -/
def op_ge (s : VMState) (a b : List Nat) : Except PyErr VMState :=
  match pyGet a 3 with
  | .error e => .error e
  | .ok ra =>
    match pyGet b 3 with
    | .error e => .error e
    | .ok rb => .ok (set_acc s (decide (getReg s (clamp_reg ra) ≥ getReg s (clamp_reg rb))))

/-- `op_le`: accumulator ← all-ones when register(A) is at most register(B). -/
def op_le (s : VMState) (a b : List Nat) : Except PyErr VMState :=
  match pyGet a 3 with
  | .error e => .error e
  | .ok ra =>
    match pyGet b 3 with
    | .error e => .error e
    | .ok rb => .ok (set_acc s (decide (getReg s (clamp_reg ra) ≤ getReg s (clamp_reg rb))))

/-- `op_ldi`: register(B) ← memory word at the address held in register(A). -/
def op_ldi (s : VMState) (a b : List Nat) : Except PyErr VMState :=
  match pyGet a 3 with
  | .error e => .error e
  | .ok ra =>
    match pyGet b 3 with
    | .error e => .error e
    | .ok rb =>
      match read_u32_be (pySlice s.memory (getReg s (clamp_reg ra))
          (getReg s (clamp_reg ra) + 4)) with
      | .error e => .error e
      | .ok v => .ok { s with regs := s.regs.set (clamp_reg rb) v }

/-- `op_sti`: memory word at the address held in register(B) ← register(A). -/
def op_sti (s : VMState) (a b : List Nat) : Except PyErr VMState :=
  match pyGet a 3 with
  | .error e => .error e
  | .ok ra =>
    match pyGet b 3 with
    | .error e => .error e
    | .ok rb =>
      match pack_u32 (getReg s (clamp_reg ra) : Int) with
      | .error e => .error e
      | .ok data =>
        .ok { s with memory := pySetSlice s.memory (getReg s (clamp_reg rb)) (getReg s (clamp_reg rb) + 4) data }

/-- `self.ops`: the opcode-to-handler dispatch table. -/
def ops (opcode : Nat) : Option (VMState → List Nat → List Nat → Except PyErr VMState) :=
  match opcode with
  | 0x0001 => some op_ld
  | 0x0002 => some op_lc
  | 0x0003 => some op_dr
  | 0x0004 => some op_cpy
  | 0x0005 => some op_or
  | 0x0006 => some op_and
  | 0x0007 => some op_xor
  | 0x0008 => some op_nand
  | 0x0009 => some op_nor
  | 0x000A => some op_not
  | 0x000B => some op_add
  | 0x000C => some op_sub
  | 0x000D => some op_mul
  | 0x000E => some op_div
  | 0x000F => some op_exp
  | 0x0020 => some op_jmp
  | 0x0021 => some op_jmr
  | 0x0022 => some op_cmp
  | 0x0023 => some op_cmr
  | 0x0030 => some op_psh
  | 0x0031 => some op_pop
  | 0x0032 => some op_movsp
  | 0x0033 => some op_call
  | 0x0034 => some op_ret
  | 0x0040 => some op_gt
  | 0x0041 => some op_lt
  | 0x0042 => some op_eq
  | 0x0043 => some op_ne
  | 0x0044 => some op_ge
  | 0x0045 => some op_le
  | 0x0050 => some op_ldi
  | 0x0051 => some op_sti
  | _ => none

/-- The result of `VM.fetch`: either the VM halted (`pc + 10` would read
past the end of memory, `running` cleared, `None` returned), or the decoded
opcode together with operand byte fields A and B. -/
inductive FetchResult where
  | halted (s : VMState)
  | instr (opcode : Nat) (a b : List Nat) (s : VMState)
deriving DecidableEq, Repr

/-- `VM.fetch`: halt when fewer than 10 bytes remain at `pc`; otherwise
slice 10 bytes (Python slicing, so a negative `pc` counts from the end of
memory), split out the opcode and the two operand fields.  Indexing an
empty slice raises `IndexError`. -/
def fetch (s : VMState) : Except PyErr FetchResult :=
  if s.pc + 10 > (s.memory.length : Int) then
    .ok (.halted { s with running := false })
  else
    let instr := pySlice s.memory s.pc (s.pc + 10)
    match instr with
    | b0 :: b1 :: _ =>
        .ok (.instr (b0 <<< 8 ||| b1) (pySlice instr 2 6) (pySlice instr 6 10) s)
    | _ => .error .indexError

/-- One iteration of the `while` loop in `VM.run`: fetch, stop on `None`,
advance `pc` by 10, then either print the unknown-opcode diagnostic and
clear `running`, or dispatch to the handler. -/
def step (s : VMState) : Except PyErr VMState :=
  match fetch s with
  | .error e => .error e
  | .ok (.halted t) => .ok t
  | .ok (.instr opcode a b t) =>
    let t2 := { t with pc := t.pc + 10 }
    match ops opcode with
    | none => .ok { t2 with running := false, output := t2.output ++ [(opcode, t2.pc - 10)] }
    | some f => f t2 a b

-- Equality of handler results is decidable (used to evaluate the embedding
-- on concrete machine states).
deriving instance DecidableEq for Except

/-! ### Basic facts about the embedded Python primitives -/

lemma pySliceIdx_le (len : Nat) (i : Int) : pySliceIdx len i ≤ len := by
  unfold pySliceIdx
  split <;> omega

lemma pySliceIdx_nonneg (len : Nat) {i : Int} (h : 0 ≤ i) :
    pySliceIdx len i = min i.toNat len := by
  unfold pySliceIdx
  split <;> omega

lemma pySliceIdx_ofNat (len n : Nat) : pySliceIdx len (n : Int) = min n len := by
  rw [pySliceIdx_nonneg len (by omega)]
  omega

lemma pySlice_length (m : List Nat) (i j : Int) :
    (pySlice m i j).length = pySliceIdx m.length j - pySliceIdx m.length i := by
  have hj := pySliceIdx_le m.length j
  unfold pySlice
  rw [List.length_drop, List.length_take]
  omega

lemma pySetSlice_length (m data : List Nat) (i j : Int) :
    (pySetSlice m i j data).length =
      pySliceIdx m.length i + data.length +
        (m.length - max (pySliceIdx m.length j) (pySliceIdx m.length i)) := by
  have hi := pySliceIdx_le m.length i
  unfold pySetSlice
  simp only [List.length_append, List.length_take, List.length_drop]
  omega

lemma read_u32_be_of_length_ne (l : List Nat) (h : l.length ≠ 4) :
    read_u32_be l = .error .structError := by
  rcases l with _ | ⟨x0, _ | ⟨x1, _ | ⟨x2, _ | ⟨x3, _ | ⟨x4, l⟩⟩⟩⟩⟩ <;>
    first
      | rfl
      | exact absurd rfl h


lemma pyGet_ok (l : List Nat) (i : Nat) (h : i < l.length) :
    pyGet l i = .ok (l.get ⟨i, h⟩) := by
  unfold pyGet
  rw [dif_pos h]

lemma pyGet_set3 (l : List Nat) (v : Nat) (h : 3 < l.length) :
    pyGet (l.set 3 v) 3 = .ok v := by
  unfold pyGet
  rw [dif_pos (by simpa using h)]
  simp

lemma clamp_reg_le (r : Nat) : clamp_reg r ≤ 14 :=
  min_le_right r 14

lemma clamp_reg_15_14 : clamp_reg 15 = clamp_reg 14 := rfl

lemma getD_set_of_le14 (l : List Nat) (i v : Nat) (h : i ≤ 14) :
    (l.set i v).getD 15 0 = l.getD 15 0 := by
  rw [List.getD_eq_getElem?_getD, List.getD_eq_getElem?_getD,
    List.getElem?_set_ne (by omega)]

lemma getD_set_self_of_lt (l : List Nat) (i v : Nat) (h : i < l.length) :
    (l.set i v).getD i 0 = v := by
  rw [List.getD_eq_getElem?_getD, List.getElem?_set_self (by simpa using h)]
  rfl

lemma getReg_set_ne (s : VMState) (i v j : Nat) (h : i ≠ j) :
    getReg { s with regs := s.regs.set i v } j = getReg s j := by
  unfold getReg
  rw [List.getD_eq_getElem?_getD, List.getD_eq_getElem?_getD,
    List.getElem?_set_ne h]

lemma getReg_set_self (s : VMState) (i v : Nat) (h : i < s.regs.length) :
    getReg { s with regs := s.regs.set i v } i = v := by
  unfold getReg
  rw [List.getD_eq_getElem?_getD, List.getElem?_set_self (by simpa using h)]
  rfl

lemma pack_u32_ok (v : Int) (h0 : 0 ≤ v) (h1 : v < 2 ^ 32) :
    pack_u32 v = .ok (packBytes v) := by
  cases v with
  | ofNat n =>
    have hn : n < 2 ^ 32 := by
      have h2 : (n : Int) < 2 ^ 32 := h1
      omega
    simp only [pack_u32]
    rw [if_pos hn]
    rfl
  | negSucc k => exact absurd h0 (by rw [Int.negSucc_eq]; omega)

lemma packBytes_length (v : Int) : (packBytes v).length = 4 := rfl

lemma read_u32_be_packBytes (v : Int) (h0 : 0 ≤ v) (h1 : v < 2 ^ 32) :
    read_u32_be (packBytes v) = .ok v.toNat := by
  have hv : v.toNat < 2 ^ 32 := by omega
  simp only [packBytes, read_u32_be, Except.ok.injEq]
  omega

/-- Writing four bytes at an in-bounds offset `sp` keeps the length. -/
lemma pySetSlice_word_length (m data : List Nat) (sp : Int) (h0 : 0 ≤ sp)
    (h4 : sp + 4 ≤ (m.length : Int)) (hd : data.length = 4) :
    (pySetSlice m sp (sp + 4) data).length = m.length := by
  have ha : pySliceIdx m.length sp = sp.toNat := by
    rw [pySliceIdx_nonneg _ h0]; omega
  have hb : pySliceIdx m.length (sp + 4) = sp.toNat + 4 := by
    rw [pySliceIdx_nonneg _ (by omega)]; omega
  rw [pySetSlice_length, ha, hb, hd]
  omega

/-- Reading back the four bytes just written at an in-bounds offset. -/
lemma pySlice_pySetSlice_word (m data : List Nat) (sp : Int) (h0 : 0 ≤ sp)
    (h4 : sp + 4 ≤ (m.length : Int)) (hd : data.length = 4) :
    pySlice (pySetSlice m sp (sp + 4) data) sp (sp + 4) = data := by
  have ha : pySliceIdx m.length sp = sp.toNat := by
    rw [pySliceIdx_nonneg _ h0]; omega
  have hb : pySliceIdx m.length (sp + 4) = sp.toNat + 4 := by
    rw [pySliceIdx_nonneg _ (by omega)]; omega
  have hlen : (pySetSlice m sp (sp + 4) data).length = m.length :=
    pySetSlice_word_length m data sp h0 h4 hd
  have hn4 : sp.toNat + 4 ≤ m.length := by omega
  unfold pySlice
  rw [hlen, ha, hb]
  simp only [pySetSlice]
  rw [ha, hb, max_eq_left (by omega)]
  rw [List.take_left' (by rw [List.length_append, List.length_take]; omega),
    List.drop_left' (by rw [List.length_take]; omega)]

/-! ### No handler touches the `running` flag, and only the arithmetic,
bitwise and comparison handlers touch register 15 (the accumulator). -/

lemma op_ld_pres_running (s : VMState) (a b : List Nat) (t : VMState)
    (h : op_ld s a b = .ok t) : t.running = s.running := by
  unfold op_ld at h
  repeat' split at h
  all_goals (cases h <;> rfl)

lemma op_lc_pres_running (s : VMState) (a b : List Nat) (t : VMState)
    (h : op_lc s a b = .ok t) : t.running = s.running := by
  unfold op_lc at h
  repeat' split at h
  all_goals (cases h <;> rfl)

lemma op_dr_pres_running (s : VMState) (a b : List Nat) (t : VMState)
    (h : op_dr s a b = .ok t) : t.running = s.running := by
  unfold op_dr at h
  repeat' split at h
  all_goals (cases h <;> rfl)

lemma op_cpy_pres_running (s : VMState) (a b : List Nat) (t : VMState)
    (h : op_cpy s a b = .ok t) : t.running = s.running := by
  unfold op_cpy at h
  repeat' split at h
  all_goals (cases h <;> rfl)

lemma op_or_pres_running (s : VMState) (a b : List Nat) (t : VMState)
    (h : op_or s a b = .ok t) : t.running = s.running := by
  unfold op_or at h
  repeat' split at h
  all_goals (cases h <;> rfl)

lemma op_and_pres_running (s : VMState) (a b : List Nat) (t : VMState)
    (h : op_and s a b = .ok t) : t.running = s.running := by
  unfold op_and at h
  repeat' split at h
  all_goals (cases h <;> rfl)

lemma op_xor_pres_running (s : VMState) (a b : List Nat) (t : VMState)
    (h : op_xor s a b = .ok t) : t.running = s.running := by
  unfold op_xor at h
  repeat' split at h
  all_goals (cases h <;> rfl)

lemma op_nand_pres_running (s : VMState) (a b : List Nat) (t : VMState)
    (h : op_nand s a b = .ok t) : t.running = s.running := by
  unfold op_nand at h
  repeat' split at h
  all_goals (cases h <;> rfl)

lemma op_nor_pres_running (s : VMState) (a b : List Nat) (t : VMState)
    (h : op_nor s a b = .ok t) : t.running = s.running := by
  unfold op_nor at h
  repeat' split at h
  all_goals (cases h <;> rfl)

lemma op_not_pres_running (s : VMState) (a b : List Nat) (t : VMState)
    (h : op_not s a b = .ok t) : t.running = s.running := by
  unfold op_not at h
  repeat' split at h
  all_goals (cases h <;> rfl)

lemma op_add_pres_running (s : VMState) (a b : List Nat) (t : VMState)
    (h : op_add s a b = .ok t) : t.running = s.running := by
  unfold op_add at h
  repeat' split at h
  all_goals (cases h <;> rfl)

lemma op_sub_pres_running (s : VMState) (a b : List Nat) (t : VMState)
    (h : op_sub s a b = .ok t) : t.running = s.running := by
  unfold op_sub at h
  repeat' split at h
  all_goals (cases h <;> rfl)

lemma op_mul_pres_running (s : VMState) (a b : List Nat) (t : VMState)
    (h : op_mul s a b = .ok t) : t.running = s.running := by
  unfold op_mul at h
  repeat' split at h
  all_goals (cases h <;> rfl)

lemma op_div_pres_running (s : VMState) (a b : List Nat) (t : VMState)
    (h : op_div s a b = .ok t) : t.running = s.running := by
  unfold op_div at h
  repeat' split at h
  all_goals (cases h <;> rfl)

lemma op_exp_pres_running (s : VMState) (a b : List Nat) (t : VMState)
    (h : op_exp s a b = .ok t) : t.running = s.running := by
  unfold op_exp at h
  repeat' split at h
  all_goals (cases h <;> rfl)

lemma op_jmp_pres_running (s : VMState) (a b : List Nat) (t : VMState)
    (h : op_jmp s a b = .ok t) : t.running = s.running := by
  unfold op_jmp at h
  repeat' split at h
  all_goals (cases h <;> rfl)

lemma op_jmr_pres_running (s : VMState) (a b : List Nat) (t : VMState)
    (h : op_jmr s a b = .ok t) : t.running = s.running := by
  unfold op_jmr at h
  repeat' split at h
  all_goals (cases h <;> rfl)

lemma op_cmp_pres_running (s : VMState) (a b : List Nat) (t : VMState)
    (h : op_cmp s a b = .ok t) : t.running = s.running := by
  unfold op_cmp at h
  simp only [ne_eq, ite_not] at h
  repeat' split at h
  all_goals (cases h <;> rfl)

lemma op_cmr_pres_running (s : VMState) (a b : List Nat) (t : VMState)
    (h : op_cmr s a b = .ok t) : t.running = s.running := by
  unfold op_cmr at h
  simp only [ne_eq, ite_not] at h
  repeat' split at h
  all_goals (cases h <;> rfl)

lemma op_psh_pres_running (s : VMState) (a b : List Nat) (t : VMState)
    (h : op_psh s a b = .ok t) : t.running = s.running := by
  unfold op_psh at h
  repeat' split at h
  all_goals (cases h <;> rfl)

lemma op_pop_pres_running (s : VMState) (a b : List Nat) (t : VMState)
    (h : op_pop s a b = .ok t) : t.running = s.running := by
  unfold op_pop at h
  repeat' split at h
  all_goals (cases h <;> rfl)

lemma op_movsp_pres_running (s : VMState) (a b : List Nat) (t : VMState)
    (h : op_movsp s a b = .ok t) : t.running = s.running := by
  unfold op_movsp at h
  repeat' split at h
  all_goals (cases h <;> rfl)

lemma op_call_pres_running (s : VMState) (a b : List Nat) (t : VMState)
    (h : op_call s a b = .ok t) : t.running = s.running := by
  unfold op_call at h
  repeat' split at h
  all_goals (cases h <;> rfl)

lemma op_ret_pres_running (s : VMState) (a b : List Nat) (t : VMState)
    (h : op_ret s a b = .ok t) : t.running = s.running := by
  unfold op_ret at h
  repeat' split at h
  all_goals (cases h <;> rfl)

lemma op_gt_pres_running (s : VMState) (a b : List Nat) (t : VMState)
    (h : op_gt s a b = .ok t) : t.running = s.running := by
  unfold op_gt set_acc at h
  repeat' split at h
  all_goals (cases h <;> rfl)

lemma op_lt_pres_running (s : VMState) (a b : List Nat) (t : VMState)
    (h : op_lt s a b = .ok t) : t.running = s.running := by
  unfold op_lt set_acc at h
  repeat' split at h
  all_goals (cases h <;> rfl)

lemma op_eq_pres_running (s : VMState) (a b : List Nat) (t : VMState)
    (h : op_eq s a b = .ok t) : t.running = s.running := by
  unfold op_eq set_acc at h
  repeat' split at h
  all_goals (cases h <;> rfl)

lemma op_ne_pres_running (s : VMState) (a b : List Nat) (t : VMState)
    (h : op_ne s a b = .ok t) : t.running = s.running := by
  unfold op_ne set_acc at h
  repeat' split at h
  all_goals (cases h <;> rfl)

lemma op_ge_pres_running (s : VMState) (a b : List Nat) (t : VMState)
    (h : op_ge s a b = .ok t) : t.running = s.running := by
  unfold op_ge set_acc at h
  repeat' split at h
  all_goals (cases h <;> rfl)

lemma op_le_pres_running (s : VMState) (a b : List Nat) (t : VMState)
    (h : op_le s a b = .ok t) : t.running = s.running := by
  unfold op_le set_acc at h
  repeat' split at h
  all_goals (cases h <;> rfl)

lemma op_ldi_pres_running (s : VMState) (a b : List Nat) (t : VMState)
    (h : op_ldi s a b = .ok t) : t.running = s.running := by
  unfold op_ldi at h
  repeat' split at h
  all_goals (cases h <;> rfl)

lemma op_sti_pres_running (s : VMState) (a b : List Nat) (t : VMState)
    (h : op_sti s a b = .ok t) : t.running = s.running := by
  unfold op_sti at h
  repeat' split at h
  all_goals (cases h <;> rfl)

lemma op_ld_pres_r15 (s : VMState) (a b : List Nat) (t : VMState)
    (h : op_ld s a b = .ok t) : t.regs.getD 15 0 = s.regs.getD 15 0 := by
  unfold op_ld at h
  repeat' split at h
  all_goals (cases h <;> first | rfl | exact getD_set_of_le14 _ _ _ (clamp_reg_le _))

lemma op_lc_pres_r15 (s : VMState) (a b : List Nat) (t : VMState)
    (h : op_lc s a b = .ok t) : t.regs.getD 15 0 = s.regs.getD 15 0 := by
  unfold op_lc at h
  repeat' split at h
  all_goals (cases h <;> first | rfl | exact getD_set_of_le14 _ _ _ (clamp_reg_le _))

lemma op_dr_pres_r15 (s : VMState) (a b : List Nat) (t : VMState)
    (h : op_dr s a b = .ok t) : t.regs.getD 15 0 = s.regs.getD 15 0 := by
  unfold op_dr at h
  repeat' split at h
  all_goals (cases h <;> first | rfl | exact getD_set_of_le14 _ _ _ (clamp_reg_le _))

lemma op_cpy_pres_r15 (s : VMState) (a b : List Nat) (t : VMState)
    (h : op_cpy s a b = .ok t) : t.regs.getD 15 0 = s.regs.getD 15 0 := by
  unfold op_cpy at h
  repeat' split at h
  all_goals (cases h <;> first | rfl | exact getD_set_of_le14 _ _ _ (clamp_reg_le _))

lemma op_jmp_pres_r15 (s : VMState) (a b : List Nat) (t : VMState)
    (h : op_jmp s a b = .ok t) : t.regs.getD 15 0 = s.regs.getD 15 0 := by
  unfold op_jmp at h
  repeat' split at h
  all_goals (cases h <;> first | rfl | exact getD_set_of_le14 _ _ _ (clamp_reg_le _))

lemma op_jmr_pres_r15 (s : VMState) (a b : List Nat) (t : VMState)
    (h : op_jmr s a b = .ok t) : t.regs.getD 15 0 = s.regs.getD 15 0 := by
  unfold op_jmr at h
  repeat' split at h
  all_goals (cases h <;> first | rfl | exact getD_set_of_le14 _ _ _ (clamp_reg_le _))

lemma op_cmp_pres_r15 (s : VMState) (a b : List Nat) (t : VMState)
    (h : op_cmp s a b = .ok t) : t.regs.getD 15 0 = s.regs.getD 15 0 := by
  unfold op_cmp at h
  simp only [ne_eq, ite_not] at h
  repeat' split at h
  all_goals (cases h <;> first | rfl | exact getD_set_of_le14 _ _ _ (clamp_reg_le _))

lemma op_cmr_pres_r15 (s : VMState) (a b : List Nat) (t : VMState)
    (h : op_cmr s a b = .ok t) : t.regs.getD 15 0 = s.regs.getD 15 0 := by
  unfold op_cmr at h
  simp only [ne_eq, ite_not] at h
  repeat' split at h
  all_goals (cases h <;> first | rfl | exact getD_set_of_le14 _ _ _ (clamp_reg_le _))

lemma op_psh_pres_r15 (s : VMState) (a b : List Nat) (t : VMState)
    (h : op_psh s a b = .ok t) : t.regs.getD 15 0 = s.regs.getD 15 0 := by
  unfold op_psh at h
  repeat' split at h
  all_goals (cases h <;> first | rfl | exact getD_set_of_le14 _ _ _ (clamp_reg_le _))

lemma op_pop_pres_r15 (s : VMState) (a b : List Nat) (t : VMState)
    (h : op_pop s a b = .ok t) : t.regs.getD 15 0 = s.regs.getD 15 0 := by
  unfold op_pop at h
  repeat' split at h
  all_goals (cases h <;> first | rfl | exact getD_set_of_le14 _ _ _ (clamp_reg_le _))

lemma op_movsp_pres_r15 (s : VMState) (a b : List Nat) (t : VMState)
    (h : op_movsp s a b = .ok t) : t.regs.getD 15 0 = s.regs.getD 15 0 := by
  unfold op_movsp at h
  repeat' split at h
  all_goals (cases h <;> first | rfl | exact getD_set_of_le14 _ _ _ (clamp_reg_le _))

lemma op_call_pres_r15 (s : VMState) (a b : List Nat) (t : VMState)
    (h : op_call s a b = .ok t) : t.regs.getD 15 0 = s.regs.getD 15 0 := by
  unfold op_call at h
  repeat' split at h
  all_goals (cases h <;> first | rfl | exact getD_set_of_le14 _ _ _ (clamp_reg_le _))

lemma op_ret_pres_r15 (s : VMState) (a b : List Nat) (t : VMState)
    (h : op_ret s a b = .ok t) : t.regs.getD 15 0 = s.regs.getD 15 0 := by
  unfold op_ret at h
  repeat' split at h
  all_goals (cases h <;> first | rfl | exact getD_set_of_le14 _ _ _ (clamp_reg_le _))

lemma op_ldi_pres_r15 (s : VMState) (a b : List Nat) (t : VMState)
    (h : op_ldi s a b = .ok t) : t.regs.getD 15 0 = s.regs.getD 15 0 := by
  unfold op_ldi at h
  repeat' split at h
  all_goals (cases h <;> first | rfl | exact getD_set_of_le14 _ _ _ (clamp_reg_le _))

lemma op_sti_pres_r15 (s : VMState) (a b : List Nat) (t : VMState)
    (h : op_sti s a b = .ok t) : t.regs.getD 15 0 = s.regs.getD 15 0 := by
  unfold op_sti at h
  repeat' split at h
  all_goals (cases h <;> first | rfl | exact getD_set_of_le14 _ _ _ (clamp_reg_le _))

/-- Every handler in the dispatch table leaves the `running` flag as it was. -/
lemma ops_preserve_running (opcode : Nat)
    (f : VMState → List Nat → List Nat → Except PyErr VMState)
    (h : ops opcode = some f)
    (s : VMState) (a b : List Nat) (t : VMState) (hf : f s a b = .ok t) :
    t.running = s.running := by
  unfold ops at h
  split at h
  · cases h; exact op_ld_pres_running s a b t hf
  · cases h; exact op_lc_pres_running s a b t hf
  · cases h; exact op_dr_pres_running s a b t hf
  · cases h; exact op_cpy_pres_running s a b t hf
  · cases h; exact op_or_pres_running s a b t hf
  · cases h; exact op_and_pres_running s a b t hf
  · cases h; exact op_xor_pres_running s a b t hf
  · cases h; exact op_nand_pres_running s a b t hf
  · cases h; exact op_nor_pres_running s a b t hf
  · cases h; exact op_not_pres_running s a b t hf
  · cases h; exact op_add_pres_running s a b t hf
  · cases h; exact op_sub_pres_running s a b t hf
  · cases h; exact op_mul_pres_running s a b t hf
  · cases h; exact op_div_pres_running s a b t hf
  · cases h; exact op_exp_pres_running s a b t hf
  · cases h; exact op_jmp_pres_running s a b t hf
  · cases h; exact op_jmr_pres_running s a b t hf
  · cases h; exact op_cmp_pres_running s a b t hf
  · cases h; exact op_cmr_pres_running s a b t hf
  · cases h; exact op_psh_pres_running s a b t hf
  · cases h; exact op_pop_pres_running s a b t hf
  · cases h; exact op_movsp_pres_running s a b t hf
  · cases h; exact op_call_pres_running s a b t hf
  · cases h; exact op_ret_pres_running s a b t hf
  · cases h; exact op_gt_pres_running s a b t hf
  · cases h; exact op_lt_pres_running s a b t hf
  · cases h; exact op_eq_pres_running s a b t hf
  · cases h; exact op_ne_pres_running s a b t hf
  · cases h; exact op_ge_pres_running s a b t hf
  · cases h; exact op_le_pres_running s a b t hf
  · cases h; exact op_ldi_pres_running s a b t hf
  · cases h; exact op_sti_pres_running s a b t hf
  · exact Option.noConfusion h

/-! ### Claim theorems -/

lemma max_one_ite (d : Nat) : max d 1 = if d = 0 then 1 else d := by
  split <;> omega

/-- C3: for all register operand values r and s, DIV writes to the
accumulator the floor division of r by s with a zero divisor replaced by 1,
never faults, and its accumulator result with divisor value 0 equals its
accumulator result with divisor value 1. -/
theorem C3_div_zero_substitution :
    (∀ (s : VMState) (a b : List Nat) (ra rb : Nat),
      pyGet a 3 = .ok ra → pyGet b 3 = .ok rb →
      op_div s a b = .ok { s with
        regs := s.regs.set ACC
          (getReg s (clamp_reg ra) /
            (if getReg s (clamp_reg rb) = 0 then 1 else getReg s (clamp_reg rb))) }) ∧
    (∀ (s : VMState) (a b : List Nat) (ra rb : Nat),
      pyGet a 3 = .ok ra → pyGet b 3 = .ok rb →
      s.regs.length = NUM_REGS →
      clamp_reg ra ≠ clamp_reg rb →
      getReg s (clamp_reg rb) = 0 →
      (op_div s a b).map (fun t => getReg t ACC) =
        (op_div { s with regs := s.regs.set (clamp_reg rb) 1 } a b).map
          (fun t => getReg t ACC)) := by
  constructor
  · intro s a b ra rb ha hb
    unfold op_div
    rw [ha, hb, ← max_one_ite]
  · intro s a b ra rb ha hb hr hne hd0
    unfold op_div
    rw [ha, hb]
    show Except.ok (getReg _ ACC) = Except.ok (getReg _ ACC)
    have h15 : (15 : Nat) < s.regs.length := by rw [hr]; unfold NUM_REGS; omega
    have hbl : clamp_reg rb < s.regs.length := by
      have := clamp_reg_le rb
      omega
    rw [getReg_set_self _ _ _ (by simpa using h15),
      getReg_set_self _ _ _ (by simpa using h15)]
    rw [getReg_set_ne _ _ _ _ (Ne.symm hne), getReg_set_self _ _ _ hbl, hd0]
    norm_num

/-- C3 witness: a concrete VM with r0 = 7 and r1 = 0 evaluates DIV both ways. -/
theorem C3_div_zero_substitution_witness :
    op_div { VM_init 16 with regs := [7,0,0,0,0,0,0,0,0,0,0,0,0,0,0,0] }
        [0,0,0,0] [0,0,0,1] =
      .ok { VM_init 16 with regs := [7,0,0,0,0,0,0,0,0,0,0,0,0,0,0,7] } ∧
    (op_div { VM_init 16 with regs := [7,0,0,0,0,0,0,0,0,0,0,0,0,0,0,0] }
        [0,0,0,0] [0,0,0,1]).map (fun t => getReg t ACC) =
      (op_div { VM_init 16 with regs := [7,1,0,0,0,0,0,0,0,0,0,0,0,0,0,0] }
        [0,0,0,0] [0,0,0,1]).map (fun t => getReg t ACC) := by
  constructor
  · rw [C3_div_zero_substitution.1 _ _ _ 0 1 (by decide) (by decide)]
    decide
  · have h := C3_div_zero_substitution.2
      { VM_init 16 with regs := [7,0,0,0,0,0,0,0,0,0,0,0,0,0,0,0] }
      [0,0,0,0] [0,0,0,1] 0 1 (by decide) (by decide) (by decide) (by decide) (by decide)
    revert h
    decide

lemma emod_self_modeq (A : Int) : A % 2 ^ 32 ≡ A [ZMOD (2 ^ 32)] :=
  Int.emod_emod_of_dvd A dvd_rfl

/-- C4: for all register operand values, ADD, SUB and MUL write the 32-bit
wrap of the sum, difference and product to the accumulator, and EXP writes
the modular power; the results are reduced representatives modulo 2^32 and
overflow never faults. -/
theorem C4_arith_wraps_mod32 :
    ∀ (s : VMState) (a b : List Nat) (ra rb : Nat),
      pyGet a 3 = .ok ra → pyGet b 3 = .ok rb →
      (∃ v, op_add s a b = .ok { s with regs := s.regs.set ACC v } ∧ v < 2 ^ 32 ∧
        (v : Int) ≡ (getReg s (clamp_reg ra) : Int) + (getReg s (clamp_reg rb) : Int)
          [ZMOD (2 ^ 32)]) ∧
      (∃ v, op_sub s a b = .ok { s with regs := s.regs.set ACC v } ∧ v < 2 ^ 32 ∧
        (v : Int) ≡ (getReg s (clamp_reg ra) : Int) - (getReg s (clamp_reg rb) : Int)
          [ZMOD (2 ^ 32)]) ∧
      (∃ v, op_mul s a b = .ok { s with regs := s.regs.set ACC v } ∧ v < 2 ^ 32 ∧
        (v : Int) ≡ (getReg s (clamp_reg ra) : Int) * (getReg s (clamp_reg rb) : Int)
          [ZMOD (2 ^ 32)]) ∧
      (∃ v, op_exp s a b = .ok { s with regs := s.regs.set ACC v } ∧ v < 2 ^ 32 ∧
        (v : Int) ≡ (getReg s (clamp_reg ra) : Int) ^ (getReg s (clamp_reg rb))
          [ZMOD (2 ^ 32)]) := by
  intro s a b ra rb ha hb
  refine
    ⟨⟨(getReg s (clamp_reg ra) + getReg s (clamp_reg rb)) % 2 ^ 32, ?_, ?_, ?_⟩,
     ⟨mask32 ((getReg s (clamp_reg ra) : Int) - getReg s (clamp_reg rb)), ?_, ?_, ?_⟩,
     ⟨(getReg s (clamp_reg ra) * getReg s (clamp_reg rb)) % 2 ^ 32, ?_, ?_, ?_⟩,
     ⟨getReg s (clamp_reg ra) ^ getReg s (clamp_reg rb) % 2 ^ 32, ?_, ?_, ?_⟩⟩
  · unfold op_add; rw [ha, hb]
  · exact Nat.mod_lt _ (by norm_num)
  · have h := emod_self_modeq ((getReg s (clamp_reg ra) : Int) + getReg s (clamp_reg rb))
    refine Int.ModEq.trans ?_ h
    unfold Int.ModEq
    push_cast
    rfl
  · unfold op_sub; rw [ha, hb]
  · unfold mask32; omega
  · have h := emod_self_modeq ((getReg s (clamp_reg ra) : Int) - getReg s (clamp_reg rb))
    refine Int.ModEq.trans ?_ h
    unfold Int.ModEq mask32
    rw [Int.toNat_of_nonneg (Int.emod_nonneg _ (by norm_num))]
  · unfold op_mul; rw [ha, hb]
  · exact Nat.mod_lt _ (by norm_num)
  · have h := emod_self_modeq ((getReg s (clamp_reg ra) : Int) * getReg s (clamp_reg rb))
    refine Int.ModEq.trans ?_ h
    unfold Int.ModEq
    push_cast
    rfl
  · unfold op_exp; rw [ha, hb]
  · exact Nat.mod_lt _ (by norm_num)
  · have h := emod_self_modeq ((getReg s (clamp_reg ra) : Int) ^ getReg s (clamp_reg rb))
    refine Int.ModEq.trans ?_ h
    unfold Int.ModEq
    push_cast
    rfl

/-- C4 witness: the boundary register values 0xFFFFFFFF and 0x00000000 wrap
as claimed on a concrete VM. -/
theorem C4_arith_wraps_mod32_witness :
    (∃ v, op_add { VM_init 16 with regs := [0xFFFFFFFF,1,0,0,0,0,0,0,0,0,0,0,0,0,0,0] }
        [0,0,0,0] [0,0,0,1] =
        .ok { VM_init 16 with
          regs := ([0xFFFFFFFF,1,0,0,0,0,0,0,0,0,0,0,0,0,0,0].set ACC v : List Nat) } ∧
      v < 2 ^ 32 ∧ (v : Int) ≡ 0xFFFFFFFF + 1 [ZMOD (2 ^ 32)]) ∧
    (∃ v, op_sub { VM_init 16 with regs := [0,1,0,0,0,0,0,0,0,0,0,0,0,0,0,0] }
        [0,0,0,0] [0,0,0,1] =
        .ok { VM_init 16 with
          regs := ([0,1,0,0,0,0,0,0,0,0,0,0,0,0,0,0].set ACC v : List Nat) } ∧
      v < 2 ^ 32 ∧ (v : Int) ≡ 0 - 1 [ZMOD (2 ^ 32)]) := by
  constructor
  · exact (C4_arith_wraps_mod32 _ _ _ 0 1 (by decide) (by decide)).1
  · exact (C4_arith_wraps_mod32 _ _ _ 0 1 (by decide) (by decide)).2.1

/-- C9: each comparison opcode GT, LT, EQ, NE, GE, LE writes exactly
0xFFFFFFFF (comparison holds) or 0x00000000 (comparison fails) to the
accumulator, for every ordered pair of register values, and never any other
value. -/
theorem C9_comparison_all_ones_or_zero :
    ∀ (s : VMState) (a b : List Nat) (ra rb : Nat),
      pyGet a 3 = .ok ra → pyGet b 3 = .ok rb →
      s.regs.length = NUM_REGS →
      (op_gt s a b = .ok { s with
        regs := s.regs.set ACC
          (if getReg s (clamp_reg ra) > getReg s (clamp_reg rb) then 0xFFFFFFFF
           else 0) }) ∧
      (op_lt s a b = .ok { s with
        regs := s.regs.set ACC
          (if getReg s (clamp_reg ra) < getReg s (clamp_reg rb) then 0xFFFFFFFF
           else 0) }) ∧
      (op_eq s a b = .ok { s with
        regs := s.regs.set ACC
          (if getReg s (clamp_reg ra) = getReg s (clamp_reg rb) then 0xFFFFFFFF
           else 0) }) ∧
      (op_ne s a b = .ok { s with
        regs := s.regs.set ACC
          (if getReg s (clamp_reg ra) ≠ getReg s (clamp_reg rb) then 0xFFFFFFFF
           else 0) }) ∧
      (op_ge s a b = .ok { s with
        regs := s.regs.set ACC
          (if getReg s (clamp_reg ra) ≥ getReg s (clamp_reg rb) then 0xFFFFFFFF
           else 0) }) ∧
      (op_le s a b = .ok { s with
        regs := s.regs.set ACC
          (if getReg s (clamp_reg ra) ≤ getReg s (clamp_reg rb) then 0xFFFFFFFF
           else 0) }) ∧
      (∀ t, op_gt s a b = .ok t →
        getReg t ACC = 0xFFFFFFFF ∨ getReg t ACC = 0) ∧
      (∀ t, op_lt s a b = .ok t →
        getReg t ACC = 0xFFFFFFFF ∨ getReg t ACC = 0) ∧
      (∀ t, op_eq s a b = .ok t →
        getReg t ACC = 0xFFFFFFFF ∨ getReg t ACC = 0) ∧
      (∀ t, op_ne s a b = .ok t →
        getReg t ACC = 0xFFFFFFFF ∨ getReg t ACC = 0) ∧
      (∀ t, op_ge s a b = .ok t →
        getReg t ACC = 0xFFFFFFFF ∨ getReg t ACC = 0) ∧
      (∀ t, op_le s a b = .ok t →
        getReg t ACC = 0xFFFFFFFF ∨ getReg t ACC = 0) := by
  intro s a b ra rb ha hb hr
  have hwrite : ∀ (c : Bool), getReg (set_acc s c) ACC = if c then 0xFFFFFFFF else 0 := by
    intro c
    unfold set_acc
    rw [getReg_set_self _ _ _ (by rw [hr]; unfold ACC NUM_REGS; omega)]
  refine ⟨?_, ?_, ?_, ?_, ?_, ?_, ?_, ?_, ?_, ?_, ?_, ?_⟩
  · unfold op_gt set_acc
    rw [ha, hb]
    show Except.ok _ = Except.ok _
    congr 3
    simp
  · unfold op_lt set_acc
    rw [ha, hb]
    show Except.ok _ = Except.ok _
    congr 3
    simp
  · unfold op_eq set_acc
    rw [ha, hb]
    show Except.ok _ = Except.ok _
    congr 3
    simp
  · unfold op_ne set_acc
    rw [ha, hb]
    show Except.ok _ = Except.ok _
    congr 3
    simp
  · unfold op_ge set_acc
    rw [ha, hb]
    show Except.ok _ = Except.ok _
    congr 3
    simp
  · unfold op_le set_acc
    rw [ha, hb]
    show Except.ok _ = Except.ok _
    congr 3
    simp
  · intro t ht
    unfold op_gt at ht
    rw [ha, hb] at ht
    cases ht
    rw [hwrite]
    split
    · exact Or.inl rfl
    · exact Or.inr rfl
  · intro t ht
    unfold op_lt at ht
    rw [ha, hb] at ht
    cases ht
    rw [hwrite]
    split
    · exact Or.inl rfl
    · exact Or.inr rfl
  · intro t ht
    unfold op_eq at ht
    rw [ha, hb] at ht
    cases ht
    rw [hwrite]
    split
    · exact Or.inl rfl
    · exact Or.inr rfl
  · intro t ht
    unfold op_ne at ht
    rw [ha, hb] at ht
    cases ht
    rw [hwrite]
    split
    · exact Or.inl rfl
    · exact Or.inr rfl
  · intro t ht
    unfold op_ge at ht
    rw [ha, hb] at ht
    cases ht
    rw [hwrite]
    split
    · exact Or.inl rfl
    · exact Or.inr rfl
  · intro t ht
    unfold op_le at ht
    rw [ha, hb] at ht
    cases ht
    rw [hwrite]
    split
    · exact Or.inl rfl
    · exact Or.inr rfl

/-- C9 witness: EQ on equal values yields all-ones and GT on equal values
yields zero, on a concrete VM with r0 = r1 = 5. -/
theorem C9_comparison_all_ones_or_zero_witness :
    op_eq { VM_init 16 with regs := [5,5,0,0,0,0,0,0,0,0,0,0,0,0,0,0] }
        [0,0,0,0] [0,0,0,1] =
      .ok { VM_init 16 with
        regs := [5,5,0,0,0,0,0,0,0,0,0,0,0,0,0,0xFFFFFFFF] } ∧
    op_gt { VM_init 16 with regs := [5,5,0,0,0,0,0,0,0,0,0,0,0,0,0,0] }
        [0,0,0,0] [0,0,0,1] =
      .ok { VM_init 16 with
        regs := [5,5,0,0,0,0,0,0,0,0,0,0,0,0,0,0] } := by
  have h := C9_comparison_all_ones_or_zero
    { VM_init 16 with regs := [5,5,0,0,0,0,0,0,0,0,0,0,0,0,0,0] }
    [0,0,0,0] [0,0,0,1] 0 1 (by decide) (by decide) (by decide)
  constructor
  · rw [h.2.2.1]
    decide
  · rw [h.1]
    decide

/-- C5: the run loop advances PC by exactly 10 before dispatching the
handler, JMP and CMP overwrite that advanced value with an absolute
address, and JMR and CMR add their signed offset to the advanced PC. -/
theorem C5_pc_advanced_before_dispatch :
    (∀ (s : VMState) (opcode : Nat) (a b : List Nat)
        (f : VMState → List Nat → List Nat → Except PyErr VMState),
      fetch s = .ok (.instr opcode a b s) → ops opcode = some f →
      step s = f { s with pc := s.pc + 10 } a b) ∧
    (∀ (s : VMState) (a b : List Nat) (addr : Nat),
      read_u32_be a = .ok addr → op_jmp s a b = .ok { s with pc := (addr : Int) }) ∧
    (∀ (s : VMState) (a b : List Nat) (offset : Int),
      read_s32_be a = .ok offset → op_jmr s a b = .ok { s with pc := s.pc + offset }) ∧
    (∀ (s : VMState) (a b : List Nat) (ra addr : Nat),
      pyGet a 3 = .ok ra → read_u32_be b = .ok addr →
      op_cmp s a b =
        .ok (if getReg s (clamp_reg ra) ≠ 0 then { s with pc := (addr : Int) } else s)) ∧
    (∀ (s : VMState) (a b : List Nat) (ra : Nat) (offset : Int),
      pyGet a 3 = .ok ra → read_s32_be b = .ok offset →
      op_cmr s a b =
        .ok (if getReg s (clamp_reg ra) ≠ 0 then { s with pc := s.pc + offset } else s)) := by
  refine ⟨?_, ?_, ?_, ?_, ?_⟩
  · intro s opcode a b f hf hop
    simp only [step, hf, hop]
  · intro s a b addr ha
    unfold op_jmp
    rw [ha]
  · intro s a b offset ha
    unfold op_jmr
    rw [ha]
  · intro s a b ra addr ha hb
    simp only [op_cmp, ha, hb]
    split <;> rfl
  · intro s a b ra offset ha hb
    simp only [op_cmr, ha, hb]
    split <;> rfl

/-- C5 witness: a JMR with offset -6 at address 0 leaves PC = 0 + 10 - 6 = 4
on a concrete VM. -/
theorem C5_pc_advanced_before_dispatch_witness :
    step { VM_init 10 with memory := [0,33,255,255,255,250,0,0,0,0] } =
      .ok { VM_init 10 with memory := [0,33,255,255,255,250,0,0,0,0], pc := 4 } := by
  have h1 := C5_pc_advanced_before_dispatch.1
    { VM_init 10 with memory := [0,33,255,255,255,250,0,0,0,0] }
    33 [255,255,255,250] [0,0,0,0] op_jmr (by decide) rfl
  rw [h1]
  decide

lemma step_eq_handler (s : VMState) (opcode : Nat) (a b : List Nat)
    (f : VMState → List Nat → List Nat → Except PyErr VMState)
    (hf : fetch s = .ok (.instr opcode a b s)) (hop : ops opcode = some f) :
    step s = f { s with pc := s.pc + 10 } a b := by
  simp only [step, hf, hop]

/-- C6: dispatching a CALL with an in-bounds stack pushes the advanced PC
(the address just past the CALL instruction), sets PC to the call target,
lowers SP by 4, and an immediately executed RET restores PC to the pushed
address and SP to its pre-call value. -/
theorem C6_call_ret_roundtrip :
    ∀ (s : VMState) (a b : List Nat) (addr : Nat),
      fetch s = .ok (.instr 0x33 a b s) →
      read_u32_be a = .ok addr →
      0 ≤ s.pc → s.pc + 10 < 2 ^ 32 →
      4 ≤ s.sp → s.sp ≤ (s.memory.length : Int) →
      ∃ t, step s = .ok t ∧ t.pc = (addr : Int) ∧ t.sp = s.sp - 4 ∧
        t.regs = s.regs ∧ t.running = s.running ∧
        read_u32_be (pySlice t.memory t.sp (t.sp + 4)) = .ok (s.pc + 10).toNat ∧
        ∀ a2 b2, ∃ u, op_ret t a2 b2 = .ok u ∧ u.pc = s.pc + 10 ∧ u.sp = s.sp ∧
          u.regs = t.regs ∧ u.memory = t.memory := by
  intro s a b addr hf ha hpc0 hpc32 hsp4 hsplen
  have hp0 : (0 : Int) ≤ s.pc + 10 := by omega
  rw [step_eq_handler s 0x33 a b op_call hf rfl]
  simp only [op_call, ha, pack_u32_ok _ hp0 hpc32]
  have hslice := pySlice_pySetSlice_word s.memory (packBytes (s.pc + 10)) (s.sp - 4)
    (by omega) (by omega) (packBytes_length _)
  refine ⟨_, rfl, rfl, rfl, rfl, rfl, ?_, ?_⟩
  · show read_u32_be (pySlice (pySetSlice s.memory (s.sp - 4) (s.sp - 4 + 4)
      (packBytes (s.pc + 10))) (s.sp - 4) (s.sp - 4 + 4)) = _
    rw [hslice, read_u32_be_packBytes _ hp0 hpc32]
  · intro a2 b2
    simp only [op_ret]
    rw [hslice, read_u32_be_packBytes _ hp0 hpc32]
    refine ⟨_, rfl, ?_, ?_, rfl, rfl⟩
    · show ((s.pc + 10).toNat : Int) = s.pc + 10
      omega
    · show s.sp - 4 + 4 = s.sp
      omega

/-- C6 witness: CALL 16 at address 0 with SP = 20 on a 20-byte memory,
followed by RET. -/
theorem C6_call_ret_roundtrip_witness :
    ∃ t, step { VM_init 20 with
        memory := [0,51,0,0,0,16,0,0,0,0,0,0,0,0,0,0,0,0,0,0] } = .ok t ∧
      t.pc = ((16 : Nat) : Int) ∧ t.sp = (20 : Int) - 4 ∧
      t.regs = (VM_init 20).regs ∧ t.running = true ∧
      read_u32_be (pySlice t.memory t.sp (t.sp + 4)) = .ok ((0 : Int) + 10).toNat ∧
      ∀ a2 b2, ∃ u, op_ret t a2 b2 = .ok u ∧ u.pc = (0 : Int) + 10 ∧
        u.sp = (20 : Int) ∧ u.regs = t.regs ∧ u.memory = t.memory :=
  C6_call_ret_roundtrip
    { VM_init 20 with memory := [0,51,0,0,0,16,0,0,0,0,0,0,0,0,0,0,0,0,0,0] }
    [0,0,0,16] [0,0,0,0] 16 (by decide) (by decide) (by decide) (by decide)
    (by decide) (by decide)

/-- C7: pushing any register value with an in-bounds stack and immediately
popping into any register restores SP and delivers the exact pushed value. -/
theorem C7_psh_pop_roundtrip :
    ∀ (s : VMState) (a b a2 b2 : List Nat) (ra ra2 : Nat),
      pyGet a 3 = .ok ra → pyGet a2 3 = .ok ra2 →
      getReg s (clamp_reg ra) < 2 ^ 32 →
      s.regs.length = NUM_REGS →
      4 ≤ s.sp → s.sp ≤ (s.memory.length : Int) →
      ∃ t u, op_psh s a b = .ok t ∧ t.sp = s.sp - 4 ∧
        op_pop t a2 b2 = .ok u ∧ u.sp = s.sp ∧
        getReg u (clamp_reg ra2) = getReg s (clamp_reg ra) := by
  intro s a b a2 b2 ra ra2 ha ha2 hlt hr hsp4 hsplen
  have h0 : (0 : Int) ≤ (getReg s (clamp_reg ra) : Int) := by omega
  have h32 : (getReg s (clamp_reg ra) : Int) < 2 ^ 32 := by
    have := hlt
    omega
  have hslice := pySlice_pySetSlice_word s.memory
    (packBytes (getReg s (clamp_reg ra))) (s.sp - 4)
    (by omega) (by omega) (packBytes_length _)
  have hpsh : op_psh s a b = .ok { s with
      sp := s.sp - 4
      memory := pySetSlice s.memory (s.sp - 4) (s.sp - 4 + 4)
        (packBytes (getReg s (clamp_reg ra))) } := by
    simp only [op_psh, ha, pack_u32_ok _ h0 h32]
  have hpop : op_pop { s with
      sp := s.sp - 4
      memory := pySetSlice s.memory (s.sp - 4) (s.sp - 4 + 4)
        (packBytes (getReg s (clamp_reg ra))) } a2 b2 = .ok { s with
      regs := s.regs.set (clamp_reg ra2) ((getReg s (clamp_reg ra) : Int)).toNat
      sp := s.sp - 4 + 4
      memory := pySetSlice s.memory (s.sp - 4) (s.sp - 4 + 4)
        (packBytes (getReg s (clamp_reg ra))) } := by
    simp only [op_pop, ha2, hslice, read_u32_be_packBytes _ h0 h32]
  refine ⟨_, _, hpsh, rfl, hpop, ?_, ?_⟩
  · show s.sp - 4 + 4 = s.sp
    omega
  · show (s.regs.set (clamp_reg ra2)
      ((getReg s (clamp_reg ra) : Int)).toNat).getD (clamp_reg ra2) 0 =
        getReg s (clamp_reg ra)
    rw [getD_set_self_of_lt]
    · omega
    · rw [hr]
      have := clamp_reg_le ra2
      unfold NUM_REGS
      omega

/-- C7 witness: pushing r0 = 42 and popping into r2 on a concrete VM with
SP = 16 restores SP and stores 42 in r2. -/
theorem C7_psh_pop_roundtrip_witness :
    ∃ t u, op_psh { VM_init 16 with regs := [42,0,0,0,0,0,0,0,0,0,0,0,0,0,0,0] }
        [0,0,0,0] [0,0,0,0] = .ok t ∧
      t.sp = (16 : Int) - 4 ∧
      op_pop t [0,0,0,2] [0,0,0,0] = .ok u ∧
      u.sp = (16 : Int) ∧
      getReg u (clamp_reg 2) = getReg
        { VM_init 16 with regs := [42,0,0,0,0,0,0,0,0,0,0,0,0,0,0,0] } (clamp_reg 0) :=
  C7_psh_pop_roundtrip
    { VM_init 16 with regs := [42,0,0,0,0,0,0,0,0,0,0,0,0,0,0,0] }
    [0,0,0,0] [0,0,0,0] [0,0,0,2] [0,0,0,0] 0 2 (by decide) (by decide) (by decide)
    (by decide) (by decide) (by decide)

/-- C2: a register operand byte of 15 behaves exactly like 14 in every
register operand position of every instruction (the clamp rule), and none
of the data-movement, control-flow, stack, call or indirect-memory handlers
ever changes register 15; only arithmetic, bitwise and comparison results
write the accumulator. -/
theorem C2_reg15_clamp_and_acc_isolation :
    (∀ (s : VMState) (x y : List Nat) (t : VMState),
      op_ld s x y = .ok t → t.regs.getD 15 0 = s.regs.getD 15 0) ∧
    (∀ (s : VMState) (x y : List Nat) (t : VMState),
      op_lc s x y = .ok t → t.regs.getD 15 0 = s.regs.getD 15 0) ∧
    (∀ (s : VMState) (x y : List Nat) (t : VMState),
      op_dr s x y = .ok t → t.regs.getD 15 0 = s.regs.getD 15 0) ∧
    (∀ (s : VMState) (x y : List Nat) (t : VMState),
      op_cpy s x y = .ok t → t.regs.getD 15 0 = s.regs.getD 15 0) ∧
    (∀ (s : VMState) (x y : List Nat) (t : VMState),
      op_jmp s x y = .ok t → t.regs.getD 15 0 = s.regs.getD 15 0) ∧
    (∀ (s : VMState) (x y : List Nat) (t : VMState),
      op_jmr s x y = .ok t → t.regs.getD 15 0 = s.regs.getD 15 0) ∧
    (∀ (s : VMState) (x y : List Nat) (t : VMState),
      op_cmp s x y = .ok t → t.regs.getD 15 0 = s.regs.getD 15 0) ∧
    (∀ (s : VMState) (x y : List Nat) (t : VMState),
      op_cmr s x y = .ok t → t.regs.getD 15 0 = s.regs.getD 15 0) ∧
    (∀ (s : VMState) (x y : List Nat) (t : VMState),
      op_psh s x y = .ok t → t.regs.getD 15 0 = s.regs.getD 15 0) ∧
    (∀ (s : VMState) (x y : List Nat) (t : VMState),
      op_pop s x y = .ok t → t.regs.getD 15 0 = s.regs.getD 15 0) ∧
    (∀ (s : VMState) (x y : List Nat) (t : VMState),
      op_movsp s x y = .ok t → t.regs.getD 15 0 = s.regs.getD 15 0) ∧
    (∀ (s : VMState) (x y : List Nat) (t : VMState),
      op_call s x y = .ok t → t.regs.getD 15 0 = s.regs.getD 15 0) ∧
    (∀ (s : VMState) (x y : List Nat) (t : VMState),
      op_ret s x y = .ok t → t.regs.getD 15 0 = s.regs.getD 15 0) ∧
    (∀ (s : VMState) (x y : List Nat) (t : VMState),
      op_ldi s x y = .ok t → t.regs.getD 15 0 = s.regs.getD 15 0) ∧
    (∀ (s : VMState) (x y : List Nat) (t : VMState),
      op_sti s x y = .ok t → t.regs.getD 15 0 = s.regs.getD 15 0) ∧
    (∀ (s : VMState) (x y : List Nat),
      op_dr s (x.set 3 15) y = op_dr s (x.set 3 14) y) ∧
    (∀ (s : VMState) (x y : List Nat),
      op_cpy s (x.set 3 15) y = op_cpy s (x.set 3 14) y) ∧
    (∀ (s : VMState) (x y : List Nat),
      op_or s (x.set 3 15) y = op_or s (x.set 3 14) y) ∧
    (∀ (s : VMState) (x y : List Nat),
      op_and s (x.set 3 15) y = op_and s (x.set 3 14) y) ∧
    (∀ (s : VMState) (x y : List Nat),
      op_xor s (x.set 3 15) y = op_xor s (x.set 3 14) y) ∧
    (∀ (s : VMState) (x y : List Nat),
      op_nand s (x.set 3 15) y = op_nand s (x.set 3 14) y) ∧
    (∀ (s : VMState) (x y : List Nat),
      op_nor s (x.set 3 15) y = op_nor s (x.set 3 14) y) ∧
    (∀ (s : VMState) (x y : List Nat),
      op_not s (x.set 3 15) y = op_not s (x.set 3 14) y) ∧
    (∀ (s : VMState) (x y : List Nat),
      op_add s (x.set 3 15) y = op_add s (x.set 3 14) y) ∧
    (∀ (s : VMState) (x y : List Nat),
      op_sub s (x.set 3 15) y = op_sub s (x.set 3 14) y) ∧
    (∀ (s : VMState) (x y : List Nat),
      op_mul s (x.set 3 15) y = op_mul s (x.set 3 14) y) ∧
    (∀ (s : VMState) (x y : List Nat),
      op_div s (x.set 3 15) y = op_div s (x.set 3 14) y) ∧
    (∀ (s : VMState) (x y : List Nat),
      op_exp s (x.set 3 15) y = op_exp s (x.set 3 14) y) ∧
    (∀ (s : VMState) (x y : List Nat),
      op_cmp s (x.set 3 15) y = op_cmp s (x.set 3 14) y) ∧
    (∀ (s : VMState) (x y : List Nat),
      op_cmr s (x.set 3 15) y = op_cmr s (x.set 3 14) y) ∧
    (∀ (s : VMState) (x y : List Nat),
      op_psh s (x.set 3 15) y = op_psh s (x.set 3 14) y) ∧
    (∀ (s : VMState) (x y : List Nat),
      op_pop s (x.set 3 15) y = op_pop s (x.set 3 14) y) ∧
    (∀ (s : VMState) (x y : List Nat),
      op_gt s (x.set 3 15) y = op_gt s (x.set 3 14) y) ∧
    (∀ (s : VMState) (x y : List Nat),
      op_lt s (x.set 3 15) y = op_lt s (x.set 3 14) y) ∧
    (∀ (s : VMState) (x y : List Nat),
      op_eq s (x.set 3 15) y = op_eq s (x.set 3 14) y) ∧
    (∀ (s : VMState) (x y : List Nat),
      op_ne s (x.set 3 15) y = op_ne s (x.set 3 14) y) ∧
    (∀ (s : VMState) (x y : List Nat),
      op_ge s (x.set 3 15) y = op_ge s (x.set 3 14) y) ∧
    (∀ (s : VMState) (x y : List Nat),
      op_le s (x.set 3 15) y = op_le s (x.set 3 14) y) ∧
    (∀ (s : VMState) (x y : List Nat),
      op_ldi s (x.set 3 15) y = op_ldi s (x.set 3 14) y) ∧
    (∀ (s : VMState) (x y : List Nat),
      op_sti s (x.set 3 15) y = op_sti s (x.set 3 14) y) ∧
    (∀ (s : VMState) (x y : List Nat),
      op_cpy s x (y.set 3 15) = op_cpy s x (y.set 3 14)) ∧
    (∀ (s : VMState) (x y : List Nat),
      op_or s x (y.set 3 15) = op_or s x (y.set 3 14)) ∧
    (∀ (s : VMState) (x y : List Nat),
      op_and s x (y.set 3 15) = op_and s x (y.set 3 14)) ∧
    (∀ (s : VMState) (x y : List Nat),
      op_xor s x (y.set 3 15) = op_xor s x (y.set 3 14)) ∧
    (∀ (s : VMState) (x y : List Nat),
      op_nand s x (y.set 3 15) = op_nand s x (y.set 3 14)) ∧
    (∀ (s : VMState) (x y : List Nat),
      op_nor s x (y.set 3 15) = op_nor s x (y.set 3 14)) ∧
    (∀ (s : VMState) (x y : List Nat),
      op_add s x (y.set 3 15) = op_add s x (y.set 3 14)) ∧
    (∀ (s : VMState) (x y : List Nat),
      op_sub s x (y.set 3 15) = op_sub s x (y.set 3 14)) ∧
    (∀ (s : VMState) (x y : List Nat),
      op_mul s x (y.set 3 15) = op_mul s x (y.set 3 14)) ∧
    (∀ (s : VMState) (x y : List Nat),
      op_div s x (y.set 3 15) = op_div s x (y.set 3 14)) ∧
    (∀ (s : VMState) (x y : List Nat),
      op_exp s x (y.set 3 15) = op_exp s x (y.set 3 14)) ∧
    (∀ (s : VMState) (x y : List Nat),
      op_gt s x (y.set 3 15) = op_gt s x (y.set 3 14)) ∧
    (∀ (s : VMState) (x y : List Nat),
      op_lt s x (y.set 3 15) = op_lt s x (y.set 3 14)) ∧
    (∀ (s : VMState) (x y : List Nat),
      op_eq s x (y.set 3 15) = op_eq s x (y.set 3 14)) ∧
    (∀ (s : VMState) (x y : List Nat),
      op_ne s x (y.set 3 15) = op_ne s x (y.set 3 14)) ∧
    (∀ (s : VMState) (x y : List Nat),
      op_ge s x (y.set 3 15) = op_ge s x (y.set 3 14)) ∧
    (∀ (s : VMState) (x y : List Nat),
      op_le s x (y.set 3 15) = op_le s x (y.set 3 14)) ∧
    (∀ (s : VMState) (x y : List Nat),
      op_ldi s x (y.set 3 15) = op_ldi s x (y.set 3 14)) ∧
    (∀ (s : VMState) (x y : List Nat),
      op_sti s x (y.set 3 15) = op_sti s x (y.set 3 14)) ∧
    (∀ (s : VMState) (x y : List Nat),
      op_ld s x (y.set 3 15) = op_ld s x (y.set 3 14)) ∧
    (∀ (s : VMState) (x y : List Nat),
      op_lc s x (y.set 3 15) = op_lc s x (y.set 3 14)) := by
  refine ⟨?_, ?_, ?_, ?_, ?_, ?_, ?_, ?_, ?_, ?_, ?_, ?_, ?_, ?_, ?_, ?_, ?_, ?_, ?_, ?_, ?_, ?_, ?_, ?_, ?_, ?_, ?_, ?_, ?_, ?_, ?_, ?_, ?_, ?_, ?_, ?_, ?_, ?_, ?_, ?_, ?_, ?_, ?_, ?_, ?_, ?_, ?_, ?_, ?_, ?_, ?_, ?_, ?_, ?_, ?_, ?_, ?_, ?_, ?_, ?_, ?_⟩
  · exact op_ld_pres_r15
  · exact op_lc_pres_r15
  · exact op_dr_pres_r15
  · exact op_cpy_pres_r15
  · exact op_jmp_pres_r15
  · exact op_jmr_pres_r15
  · exact op_cmp_pres_r15
  · exact op_cmr_pres_r15
  · exact op_psh_pres_r15
  · exact op_pop_pres_r15
  · exact op_movsp_pres_r15
  · exact op_call_pres_r15
  · exact op_ret_pres_r15
  · exact op_ldi_pres_r15
  · exact op_sti_pres_r15
  · intro s x y
    unfold op_dr
    by_cases h : 3 < x.length
    · rw [pyGet_set3 x 15 h, pyGet_set3 x 14 h]
      all_goals rfl
    · rw [List.set_eq_of_length_le (by omega), List.set_eq_of_length_le (by omega)]
  · intro s x y
    unfold op_cpy
    by_cases h : 3 < x.length
    · rw [pyGet_set3 x 15 h, pyGet_set3 x 14 h]
      all_goals rfl
    · rw [List.set_eq_of_length_le (by omega), List.set_eq_of_length_le (by omega)]
  · intro s x y
    unfold op_or
    by_cases h : 3 < x.length
    · rw [pyGet_set3 x 15 h, pyGet_set3 x 14 h]
      all_goals rfl
    · rw [List.set_eq_of_length_le (by omega), List.set_eq_of_length_le (by omega)]
  · intro s x y
    unfold op_and
    by_cases h : 3 < x.length
    · rw [pyGet_set3 x 15 h, pyGet_set3 x 14 h]
      all_goals rfl
    · rw [List.set_eq_of_length_le (by omega), List.set_eq_of_length_le (by omega)]
  · intro s x y
    unfold op_xor
    by_cases h : 3 < x.length
    · rw [pyGet_set3 x 15 h, pyGet_set3 x 14 h]
      all_goals rfl
    · rw [List.set_eq_of_length_le (by omega), List.set_eq_of_length_le (by omega)]
  · intro s x y
    unfold op_nand
    by_cases h : 3 < x.length
    · rw [pyGet_set3 x 15 h, pyGet_set3 x 14 h]
      all_goals rfl
    · rw [List.set_eq_of_length_le (by omega), List.set_eq_of_length_le (by omega)]
  · intro s x y
    unfold op_nor
    by_cases h : 3 < x.length
    · rw [pyGet_set3 x 15 h, pyGet_set3 x 14 h]
      all_goals rfl
    · rw [List.set_eq_of_length_le (by omega), List.set_eq_of_length_le (by omega)]
  · intro s x y
    unfold op_not
    by_cases h : 3 < x.length
    · rw [pyGet_set3 x 15 h, pyGet_set3 x 14 h]
      all_goals rfl
    · rw [List.set_eq_of_length_le (by omega), List.set_eq_of_length_le (by omega)]
  · intro s x y
    unfold op_add
    by_cases h : 3 < x.length
    · rw [pyGet_set3 x 15 h, pyGet_set3 x 14 h]
      all_goals rfl
    · rw [List.set_eq_of_length_le (by omega), List.set_eq_of_length_le (by omega)]
  · intro s x y
    unfold op_sub
    by_cases h : 3 < x.length
    · rw [pyGet_set3 x 15 h, pyGet_set3 x 14 h]
      all_goals rfl
    · rw [List.set_eq_of_length_le (by omega), List.set_eq_of_length_le (by omega)]
  · intro s x y
    unfold op_mul
    by_cases h : 3 < x.length
    · rw [pyGet_set3 x 15 h, pyGet_set3 x 14 h]
      all_goals rfl
    · rw [List.set_eq_of_length_le (by omega), List.set_eq_of_length_le (by omega)]
  · intro s x y
    unfold op_div
    by_cases h : 3 < x.length
    · rw [pyGet_set3 x 15 h, pyGet_set3 x 14 h]
      all_goals rfl
    · rw [List.set_eq_of_length_le (by omega), List.set_eq_of_length_le (by omega)]
  · intro s x y
    unfold op_exp
    by_cases h : 3 < x.length
    · rw [pyGet_set3 x 15 h, pyGet_set3 x 14 h]
      all_goals rfl
    · rw [List.set_eq_of_length_le (by omega), List.set_eq_of_length_le (by omega)]
  · intro s x y
    unfold op_cmp
    by_cases h : 3 < x.length
    · rw [pyGet_set3 x 15 h, pyGet_set3 x 14 h]
      all_goals rfl
    · rw [List.set_eq_of_length_le (by omega), List.set_eq_of_length_le (by omega)]
  · intro s x y
    unfold op_cmr
    by_cases h : 3 < x.length
    · rw [pyGet_set3 x 15 h, pyGet_set3 x 14 h]
      all_goals rfl
    · rw [List.set_eq_of_length_le (by omega), List.set_eq_of_length_le (by omega)]
  · intro s x y
    unfold op_psh
    by_cases h : 3 < x.length
    · rw [pyGet_set3 x 15 h, pyGet_set3 x 14 h]
      all_goals rfl
    · rw [List.set_eq_of_length_le (by omega), List.set_eq_of_length_le (by omega)]
  · intro s x y
    unfold op_pop
    by_cases h : 3 < x.length
    · rw [pyGet_set3 x 15 h, pyGet_set3 x 14 h]
      all_goals rfl
    · rw [List.set_eq_of_length_le (by omega), List.set_eq_of_length_le (by omega)]
  · intro s x y
    unfold op_gt
    by_cases h : 3 < x.length
    · rw [pyGet_set3 x 15 h, pyGet_set3 x 14 h]
      all_goals rfl
    · rw [List.set_eq_of_length_le (by omega), List.set_eq_of_length_le (by omega)]
  · intro s x y
    unfold op_lt
    by_cases h : 3 < x.length
    · rw [pyGet_set3 x 15 h, pyGet_set3 x 14 h]
      all_goals rfl
    · rw [List.set_eq_of_length_le (by omega), List.set_eq_of_length_le (by omega)]
  · intro s x y
    unfold op_eq
    by_cases h : 3 < x.length
    · rw [pyGet_set3 x 15 h, pyGet_set3 x 14 h]
      all_goals rfl
    · rw [List.set_eq_of_length_le (by omega), List.set_eq_of_length_le (by omega)]
  · intro s x y
    unfold op_ne
    by_cases h : 3 < x.length
    · rw [pyGet_set3 x 15 h, pyGet_set3 x 14 h]
      all_goals rfl
    · rw [List.set_eq_of_length_le (by omega), List.set_eq_of_length_le (by omega)]
  · intro s x y
    unfold op_ge
    by_cases h : 3 < x.length
    · rw [pyGet_set3 x 15 h, pyGet_set3 x 14 h]
      all_goals rfl
    · rw [List.set_eq_of_length_le (by omega), List.set_eq_of_length_le (by omega)]
  · intro s x y
    unfold op_le
    by_cases h : 3 < x.length
    · rw [pyGet_set3 x 15 h, pyGet_set3 x 14 h]
      all_goals rfl
    · rw [List.set_eq_of_length_le (by omega), List.set_eq_of_length_le (by omega)]
  · intro s x y
    unfold op_ldi
    by_cases h : 3 < x.length
    · rw [pyGet_set3 x 15 h, pyGet_set3 x 14 h]
      all_goals rfl
    · rw [List.set_eq_of_length_le (by omega), List.set_eq_of_length_le (by omega)]
  · intro s x y
    unfold op_sti
    by_cases h : 3 < x.length
    · rw [pyGet_set3 x 15 h, pyGet_set3 x 14 h]
      all_goals rfl
    · rw [List.set_eq_of_length_le (by omega), List.set_eq_of_length_le (by omega)]
  · intro s x y
    unfold op_cpy
    cases hpa : pyGet x 3 with
    | error e => rfl
    | ok ra =>
      by_cases h : 3 < y.length
      · rw [pyGet_set3 y 15 h, pyGet_set3 y 14 h]
        all_goals rfl
      · rw [List.set_eq_of_length_le (by omega), List.set_eq_of_length_le (by omega)]
  · intro s x y
    unfold op_or
    cases hpa : pyGet x 3 with
    | error e => rfl
    | ok ra =>
      by_cases h : 3 < y.length
      · rw [pyGet_set3 y 15 h, pyGet_set3 y 14 h]
        all_goals rfl
      · rw [List.set_eq_of_length_le (by omega), List.set_eq_of_length_le (by omega)]
  · intro s x y
    unfold op_and
    cases hpa : pyGet x 3 with
    | error e => rfl
    | ok ra =>
      by_cases h : 3 < y.length
      · rw [pyGet_set3 y 15 h, pyGet_set3 y 14 h]
        all_goals rfl
      · rw [List.set_eq_of_length_le (by omega), List.set_eq_of_length_le (by omega)]
  · intro s x y
    unfold op_xor
    cases hpa : pyGet x 3 with
    | error e => rfl
    | ok ra =>
      by_cases h : 3 < y.length
      · rw [pyGet_set3 y 15 h, pyGet_set3 y 14 h]
        all_goals rfl
      · rw [List.set_eq_of_length_le (by omega), List.set_eq_of_length_le (by omega)]
  · intro s x y
    unfold op_nand
    cases hpa : pyGet x 3 with
    | error e => rfl
    | ok ra =>
      by_cases h : 3 < y.length
      · rw [pyGet_set3 y 15 h, pyGet_set3 y 14 h]
        all_goals rfl
      · rw [List.set_eq_of_length_le (by omega), List.set_eq_of_length_le (by omega)]
  · intro s x y
    unfold op_nor
    cases hpa : pyGet x 3 with
    | error e => rfl
    | ok ra =>
      by_cases h : 3 < y.length
      · rw [pyGet_set3 y 15 h, pyGet_set3 y 14 h]
        all_goals rfl
      · rw [List.set_eq_of_length_le (by omega), List.set_eq_of_length_le (by omega)]
  · intro s x y
    unfold op_add
    cases hpa : pyGet x 3 with
    | error e => rfl
    | ok ra =>
      by_cases h : 3 < y.length
      · rw [pyGet_set3 y 15 h, pyGet_set3 y 14 h]
        all_goals rfl
      · rw [List.set_eq_of_length_le (by omega), List.set_eq_of_length_le (by omega)]
  · intro s x y
    unfold op_sub
    cases hpa : pyGet x 3 with
    | error e => rfl
    | ok ra =>
      by_cases h : 3 < y.length
      · rw [pyGet_set3 y 15 h, pyGet_set3 y 14 h]
        all_goals rfl
      · rw [List.set_eq_of_length_le (by omega), List.set_eq_of_length_le (by omega)]
  · intro s x y
    unfold op_mul
    cases hpa : pyGet x 3 with
    | error e => rfl
    | ok ra =>
      by_cases h : 3 < y.length
      · rw [pyGet_set3 y 15 h, pyGet_set3 y 14 h]
        all_goals rfl
      · rw [List.set_eq_of_length_le (by omega), List.set_eq_of_length_le (by omega)]
  · intro s x y
    unfold op_div
    cases hpa : pyGet x 3 with
    | error e => rfl
    | ok ra =>
      by_cases h : 3 < y.length
      · rw [pyGet_set3 y 15 h, pyGet_set3 y 14 h]
        all_goals rfl
      · rw [List.set_eq_of_length_le (by omega), List.set_eq_of_length_le (by omega)]
  · intro s x y
    unfold op_exp
    cases hpa : pyGet x 3 with
    | error e => rfl
    | ok ra =>
      by_cases h : 3 < y.length
      · rw [pyGet_set3 y 15 h, pyGet_set3 y 14 h]
        all_goals rfl
      · rw [List.set_eq_of_length_le (by omega), List.set_eq_of_length_le (by omega)]
  · intro s x y
    unfold op_gt
    cases hpa : pyGet x 3 with
    | error e => rfl
    | ok ra =>
      by_cases h : 3 < y.length
      · rw [pyGet_set3 y 15 h, pyGet_set3 y 14 h]
        all_goals rfl
      · rw [List.set_eq_of_length_le (by omega), List.set_eq_of_length_le (by omega)]
  · intro s x y
    unfold op_lt
    cases hpa : pyGet x 3 with
    | error e => rfl
    | ok ra =>
      by_cases h : 3 < y.length
      · rw [pyGet_set3 y 15 h, pyGet_set3 y 14 h]
        all_goals rfl
      · rw [List.set_eq_of_length_le (by omega), List.set_eq_of_length_le (by omega)]
  · intro s x y
    unfold op_eq
    cases hpa : pyGet x 3 with
    | error e => rfl
    | ok ra =>
      by_cases h : 3 < y.length
      · rw [pyGet_set3 y 15 h, pyGet_set3 y 14 h]
        all_goals rfl
      · rw [List.set_eq_of_length_le (by omega), List.set_eq_of_length_le (by omega)]
  · intro s x y
    unfold op_ne
    cases hpa : pyGet x 3 with
    | error e => rfl
    | ok ra =>
      by_cases h : 3 < y.length
      · rw [pyGet_set3 y 15 h, pyGet_set3 y 14 h]
        all_goals rfl
      · rw [List.set_eq_of_length_le (by omega), List.set_eq_of_length_le (by omega)]
  · intro s x y
    unfold op_ge
    cases hpa : pyGet x 3 with
    | error e => rfl
    | ok ra =>
      by_cases h : 3 < y.length
      · rw [pyGet_set3 y 15 h, pyGet_set3 y 14 h]
        all_goals rfl
      · rw [List.set_eq_of_length_le (by omega), List.set_eq_of_length_le (by omega)]
  · intro s x y
    unfold op_le
    cases hpa : pyGet x 3 with
    | error e => rfl
    | ok ra =>
      by_cases h : 3 < y.length
      · rw [pyGet_set3 y 15 h, pyGet_set3 y 14 h]
        all_goals rfl
      · rw [List.set_eq_of_length_le (by omega), List.set_eq_of_length_le (by omega)]
  · intro s x y
    unfold op_ldi
    cases hpa : pyGet x 3 with
    | error e => rfl
    | ok ra =>
      by_cases h : 3 < y.length
      · rw [pyGet_set3 y 15 h, pyGet_set3 y 14 h]
        all_goals rfl
      · rw [List.set_eq_of_length_le (by omega), List.set_eq_of_length_le (by omega)]
  · intro s x y
    unfold op_sti
    cases hpa : pyGet x 3 with
    | error e => rfl
    | ok ra =>
      by_cases h : 3 < y.length
      · rw [pyGet_set3 y 15 h, pyGet_set3 y 14 h]
        all_goals rfl
      · rw [List.set_eq_of_length_le (by omega), List.set_eq_of_length_le (by omega)]
  · intro s x y
    unfold op_ld
    cases hra : read_u32_be x with
    | error e => rfl
    | ok w =>
      by_cases h : 3 < y.length
      · rw [pyGet_set3 y 15 h, pyGet_set3 y 14 h]
        all_goals rfl
      · rw [List.set_eq_of_length_le (by omega), List.set_eq_of_length_le (by omega)]
  · intro s x y
    unfold op_lc
    cases hra : read_u32_be x with
    | error e => rfl
    | ok w =>
      by_cases h : 3 < y.length
      · rw [pyGet_set3 y 15 h, pyGet_set3 y 14 h]
        all_goals rfl
      · rw [List.set_eq_of_length_le (by omega), List.set_eq_of_length_le (by omega)]

/-- C2 witness: LC writing register 3 on a VM whose accumulator holds 7
leaves register 15 untouched. -/
theorem C2_reg15_clamp_and_acc_isolation_witness :
    ({ VM_init 16 with regs := [0,0,0,5,0,0,0,0,0,0,0,0,0,0,0,7] } : VMState).regs.getD 15 0 =
      ({ VM_init 16 with regs := [0,0,0,0,0,0,0,0,0,0,0,0,0,0,0,7] } : VMState).regs.getD 15 0 :=
  C2_reg15_clamp_and_acc_isolation.2.1
    { VM_init 16 with regs := [0,0,0,0,0,0,0,0,0,0,0,0,0,0,0,7] }
    [0,0,0,5] [0,0,0,3]
    { VM_init 16 with regs := [0,0,0,5,0,0,0,0,0,0,0,0,0,0,0,7] }
    (by decide)

/-- C8 counterexample: with PC = -5 on a 16-byte memory the fetch guard
`PC + 10 > MEM_SIZE` is false, yet the cycle neither dispatches nor stays
Running: the 10-byte slice is empty and `instr[0]` raises IndexError. -/
theorem C8_counterexample_negative_pc :
    step { VM_init 16 with pc := -5 } = .error .indexError ∧
    ¬((16 : Int) < (-5 : Int) + 10) := by decide

/-- C8 (amended): the loop halts normally, with no diagnostic, whenever
`PC + 10 > MEM_SIZE`; it halts fatally with a diagnostic carrying the
opcode and the instruction's starting address whenever the fetched opcode
has no handler; and in every other cycle in which the fetch yields a full
instruction and the handler completes without raising, it dispatches the
handler and the Running flag is left unchanged. -/
theorem C8_amended_fetch_dispatch :
    (∀ s : VMState, (s.memory.length : Int) < s.pc + 10 →
      step s = .ok { s with running := false }) ∧
    (∀ (s : VMState) (opcode : Nat) (a b : List Nat),
      fetch s = .ok (.instr opcode a b s) → ops opcode = none →
      step s = .ok { s with
        pc := s.pc + 10
        running := false
        output := s.output ++ [(opcode, s.pc)] }) ∧
    (∀ (s : VMState) (opcode : Nat) (a b : List Nat)
        (f : VMState → List Nat → List Nat → Except PyErr VMState) (t : VMState),
      fetch s = .ok (.instr opcode a b s) → ops opcode = some f →
      f { s with pc := s.pc + 10 } a b = .ok t →
      step s = .ok t ∧ t.running = s.running) := by
  refine ⟨?_, ?_, ?_⟩
  · intro s h
    have h2 : s.pc + 10 > (s.memory.length : Int) := h
    have hf : fetch s = .ok (.halted { s with running := false }) := by
      unfold fetch
      rw [if_pos h2]
    simp only [step, hf]
  · intro s opcode a b hf hop
    simp only [step, hf, hop]
    rw [show s.pc + 10 - 10 = s.pc by omega]
  · intro s opcode a b f t hf hop hft
    refine ⟨?_, ?_⟩
    · rw [step_eq_handler s opcode a b f hf hop]
      exact hft
    · exact ops_preserve_running opcode f hop { s with pc := s.pc + 10 } a b t hft

/-- C8 witness: end-of-memory halt, an unknown opcode 0xFFFF with its
diagnostic, and a dispatched LC that stays Running, on concrete VMs. -/
theorem C8_amended_fetch_dispatch_witness :
    step (VM_init 4) = .ok { VM_init 4 with running := false } ∧
    step { VM_init 12 with memory := [255,255,0,0,0,0,0,0,0,0,0,0] } =
      .ok { VM_init 12 with
        memory := [255,255,0,0,0,0,0,0,0,0,0,0]
        pc := (0 : Int) + 10
        running := false
        output := [(65535, 0)] } ∧
    (step { VM_init 12 with memory := [0,2,0,0,0,5,0,0,0,3,0,0] } =
      .ok { VM_init 12 with
        memory := [0,2,0,0,0,5,0,0,0,3,0,0]
        pc := (0 : Int) + 10
        regs := [0,0,0,5,0,0,0,0,0,0,0,0,0,0,0,0] } ∧
     ({ VM_init 12 with
        memory := [0,2,0,0,0,5,0,0,0,3,0,0]
        pc := (0 : Int) + 10
        regs := [0,0,0,5,0,0,0,0,0,0,0,0,0,0,0,0] } : VMState).running =
       ({ VM_init 12 with memory := [0,2,0,0,0,5,0,0,0,3,0,0] } : VMState).running) := by
  refine ⟨?_, ?_, ?_⟩
  · exact C8_amended_fetch_dispatch.1 (VM_init 4) (by decide)
  · exact C8_amended_fetch_dispatch.2.1
      { VM_init 12 with memory := [255,255,0,0,0,0,0,0,0,0,0,0] }
      65535 [0,0,0,0] [0,0,0,0] (by decide) rfl
  · exact C8_amended_fetch_dispatch.2.2
      { VM_init 12 with memory := [0,2,0,0,0,5,0,0,0,3,0,0] }
      2 [0,0,0,5] [0,0,0,3] op_lc
      { VM_init 12 with
        memory := [0,2,0,0,0,5,0,0,0,3,0,0]
        pc := (0 : Int) + 10
        regs := [0,0,0,5,0,0,0,0,0,0,0,0,0,0,0,0] }
      (by decide) rfl (by decide)

/-- C10 counterexample: PC = -10 lies inside the claimed interval
[-MEM_SIZE, -10], but the slice `memory[-10 : 0]` is empty (a stop index of
0 is not end-relative in Python), so fetch raises IndexError instead of
reading 10 bytes from offset MEM_SIZE + PC. -/
theorem C10_counterexample_pc_minus_ten :
    fetch { VM_init 12 with pc := -10 } = .error .indexError ∧
    -((VM_init 12).memory.length : Int) ≤ -10 ∧ ((-10 : Int) ≤ -10) ∧
    pySlice (VM_init 12).memory (-10) (-10 + 10) = [] := by decide

/-- C10 (amended): for PC in [-MEM_SIZE, -11] the fetch guard is false and
the 10 instruction bytes are read from offset MEM_SIZE + PC, so execution
silently continues from near the top of memory; at PC = -10 exactly the
slice is instead empty and the fetch crashes with an IndexError. -/
theorem C10_amended_negative_pc_wraps :
    ∀ s : VMState, -(s.memory.length : Int) ≤ s.pc → s.pc ≤ -11 →
      ¬((s.memory.length : Int) < s.pc + 10) ∧
      (pySlice s.memory s.pc (s.pc + 10)).length = 10 ∧
      pySlice s.memory s.pc (s.pc + 10) =
        pySlice s.memory ((s.memory.length : Int) + s.pc)
          ((s.memory.length : Int) + s.pc + 10) ∧
      ∃ opcode aF bF, fetch s = .ok (.instr opcode aF bF s) := by
  intro s h1 h2
  have hi : pySliceIdx s.memory.length s.pc = (s.pc + s.memory.length).toNat := by
    unfold pySliceIdx
    rw [if_pos (by omega)]
  have hj : pySliceIdx s.memory.length (s.pc + 10) =
      (s.pc + 10 + s.memory.length).toNat := by
    unfold pySliceIdx
    rw [if_pos (by omega)]
  have hi2 : pySliceIdx s.memory.length ((s.memory.length : Int) + s.pc) =
      (s.pc + s.memory.length).toNat := by
    rw [pySliceIdx_nonneg _ (by omega)]
    omega
  have hj2 : pySliceIdx s.memory.length ((s.memory.length : Int) + s.pc + 10) =
      (s.pc + 10 + s.memory.length).toNat := by
    rw [pySliceIdx_nonneg _ (by omega)]
    omega
  have hlen : (pySlice s.memory s.pc (s.pc + 10)).length = 10 := by
    rw [pySlice_length, hi, hj]
    omega
  refine ⟨by omega, hlen, ?_, ?_⟩
  · unfold pySlice
    rw [hi, hj, hi2, hj2]
  · rcases hsl : pySlice s.memory s.pc (s.pc + 10) with _ | ⟨b0, _ | ⟨b1, rest⟩⟩
    · rw [hsl] at hlen
      exact absurd hlen (by simp)
    · rw [hsl] at hlen
      exact absurd hlen (by simp)
    · refine ⟨b0 <<< 8 ||| b1, pySlice (b0 :: b1 :: rest) 2 6,
        pySlice (b0 :: b1 :: rest) 6 10, ?_⟩
      simp only [fetch]
      rw [if_neg (by omega), hsl]

/-- C10 witness: a 12-byte memory with PC = -11 fetches the 10 bytes at
offset 1. -/
theorem C10_amended_negative_pc_wraps_witness :
    ¬((((VM_init 12).memory.length : Int)) < (-11 : Int) + 10) ∧
    (pySlice { VM_init 12 with pc := -11 }.memory (-11) ((-11) + 10)).length = 10 ∧
    pySlice { VM_init 12 with pc := -11 }.memory (-11) ((-11) + 10) =
      pySlice { VM_init 12 with pc := -11 }.memory
        (((VM_init 12).memory.length : Int) + (-11))
        (((VM_init 12).memory.length : Int) + (-11) + 10) ∧
    ∃ opcode aF bF, fetch { VM_init 12 with pc := -11 } =
      .ok (.instr opcode aF bF { VM_init 12 with pc := -11 }) :=
  C10_amended_negative_pc_wraps { VM_init 12 with pc := -11 } (by decide) (by decide)

lemma pySlice_word_short (m : List Nat) (sp : Int) (h0 : 0 ≤ sp)
    (h : (m.length : Int) < sp + 4) :
    read_u32_be (pySlice m sp (sp + 4)) = .error .structError := by
  apply read_u32_be_of_length_ne
  rw [pySlice_length, pySliceIdx_nonneg _ h0, pySliceIdx_nonneg _ (by omega)]
  omega

lemma pySetSlice_word_grow (m data : List Nat) (sp : Int) (h0 : 0 ≤ sp)
    (hlen : (m.length : Int) < sp + 4) (hd : data.length = 4) :
    m.length < (pySetSlice m sp (sp + 4) data).length ∧
    (pySetSlice m sp (sp + 4) data).length = min sp.toNat m.length + 4 := by
  rw [pySetSlice_length, pySliceIdx_nonneg _ h0, pySliceIdx_nonneg _ (by omega), hd]
  omega

/-- C1 counterexample: DR storing register 0 at address 16 on a 16-byte
memory (a 4-byte span past the capacity) does not halt and does mutate
state: the write succeeds by extending the byte store to 20 bytes while
the VM stays running. -/
theorem C1_counterexample_dr_extends_memory :
    op_dr (VM_init 16) [0,0,0,0] [0,0,0,16] =
      .ok { VM_init 16 with memory := List.replicate 20 0 } ∧
    (16 : Nat) + 4 > 16 ∧
    ({ VM_init 16 with memory := List.replicate 20 0 } : VMState).running = true ∧
    ({ VM_init 16 with memory := List.replicate 20 0 } : VMState).memory.length = 20 := by
  decide

/-- C1 (amended): no instruction reports a MemoryFault.  A 4-byte READ past
memory capacity (LD, LDI, POP, RET) aborts the interpreter with an uncaught
struct error — a crash, with no register or memory mutation surviving — and
a 4-byte WRITE past capacity (DR, STI, PSH, CALL) does not halt at all: the
byte store is extended beyond its previous length, the instruction commits
its state change, and execution continues. -/
theorem C1_amended_oob_reads_crash_writes_extend :
    (∀ (s : VMState) (a b : List Nat) (addr : Nat),
      read_u32_be a = .ok addr → 3 < b.length → s.memory.length < addr + 4 →
      op_ld s a b = .error .structError) ∧
    (∀ (s : VMState) (a b : List Nat) (ra rb : Nat),
      pyGet a 3 = .ok ra → pyGet b 3 = .ok rb →
      s.memory.length < getReg s (clamp_reg ra) + 4 →
      op_ldi s a b = .error .structError) ∧
    (∀ (s : VMState) (a b : List Nat) (ra : Nat),
      pyGet a 3 = .ok ra → 0 ≤ s.sp → (s.memory.length : Int) < s.sp + 4 →
      op_pop s a b = .error .structError) ∧
    (∀ (s : VMState) (a b : List Nat),
      0 ≤ s.sp → (s.memory.length : Int) < s.sp + 4 →
      op_ret s a b = .error .structError) ∧
    (∀ (s : VMState) (a b : List Nat) (ra addr : Nat),
      pyGet a 3 = .ok ra → read_u32_be b = .ok addr →
      getReg s (clamp_reg ra) < 2 ^ 32 → s.memory.length < addr + 4 →
      ∃ t, op_dr s a b = .ok t ∧ t.running = s.running ∧ t.regs = s.regs ∧
        t.memory.length = min addr s.memory.length + 4 ∧
        s.memory.length < t.memory.length) ∧
    (∀ (s : VMState) (a b : List Nat) (ra rb : Nat),
      pyGet a 3 = .ok ra → pyGet b 3 = .ok rb →
      getReg s (clamp_reg ra) < 2 ^ 32 →
      s.memory.length < getReg s (clamp_reg rb) + 4 →
      ∃ t, op_sti s a b = .ok t ∧ t.running = s.running ∧ t.regs = s.regs ∧
        s.memory.length < t.memory.length) ∧
    (∀ (s : VMState) (a b : List Nat) (ra : Nat),
      pyGet a 3 = .ok ra → getReg s (clamp_reg ra) < 2 ^ 32 →
      0 ≤ s.sp - 4 → (s.memory.length : Int) < s.sp →
      ∃ t, op_psh s a b = .ok t ∧ t.running = s.running ∧ t.sp = s.sp - 4 ∧
        s.memory.length < t.memory.length) ∧
    (∀ (s : VMState) (a b : List Nat) (addr : Nat),
      read_u32_be a = .ok addr → 0 ≤ s.pc → s.pc < 2 ^ 32 →
      0 ≤ s.sp - 4 → (s.memory.length : Int) < s.sp →
      ∃ t, op_call s a b = .ok t ∧ t.running = s.running ∧ t.pc = (addr : Int) ∧
        s.memory.length < t.memory.length) := by
  refine ⟨?_, ?_, ?_, ?_, ?_, ?_, ?_, ?_⟩
  · intro s a b addr ha hb3 hoob
    simp only [op_ld, ha, pyGet_ok b 3 hb3,
      pySlice_word_short s.memory (addr : Int) (by omega) (by omega)]
  · intro s a b ra rb ha hb hoob
    simp only [op_ldi, ha, hb,
      pySlice_word_short s.memory (getReg s (clamp_reg ra) : Int) (by omega) (by omega)]
  · intro s a b ra ha hsp hoob
    simp only [op_pop, ha, pySlice_word_short s.memory s.sp hsp hoob]
  · intro s a b hsp hoob
    simp only [op_ret, pySlice_word_short s.memory s.sp hsp hoob]
  · intro s a b ra addr ha hb hreg hoob
    have h0 : (0 : Int) ≤ (getReg s (clamp_reg ra) : Int) := by omega
    have h32 : (getReg s (clamp_reg ra) : Int) < 2 ^ 32 := by
      have := hreg
      omega
    have hgrow := pySetSlice_word_grow s.memory
      (packBytes (getReg s (clamp_reg ra))) (addr : Int)
      (by omega) (by omega) (packBytes_length _)
    have hdr : op_dr s a b = .ok { s with
        memory := pySetSlice s.memory (addr : Int) ((addr : Int) + 4)
          (packBytes (getReg s (clamp_reg ra) : Int)) } := by
      simp only [op_dr, ha, hb, pack_u32_ok _ h0 h32]
    refine ⟨_, hdr, rfl, rfl, ?_, ?_⟩
    · show (pySetSlice s.memory (addr : Int) ((addr : Int) + 4)
        (packBytes (getReg s (clamp_reg ra) : Int))).length = min addr s.memory.length + 4
      rw [hgrow.2]
      omega
    · exact hgrow.1
  · intro s a b ra rb ha hb hreg hoob
    have h0 : (0 : Int) ≤ (getReg s (clamp_reg ra) : Int) := by omega
    have h32 : (getReg s (clamp_reg ra) : Int) < 2 ^ 32 := by
      have := hreg
      omega
    have hgrow := pySetSlice_word_grow s.memory
      (packBytes (getReg s (clamp_reg ra))) (getReg s (clamp_reg rb) : Int)
      (by omega) (by omega) (packBytes_length _)
    have hsti : op_sti s a b = .ok { s with
        memory := pySetSlice s.memory (getReg s (clamp_reg rb) : Int)
          ((getReg s (clamp_reg rb) : Int) + 4)
          (packBytes (getReg s (clamp_reg ra) : Int)) } := by
      simp only [op_sti, ha, hb, pack_u32_ok _ h0 h32]
    exact ⟨_, hsti, rfl, rfl, hgrow.1⟩
  · intro s a b ra ha hreg hsp4 hsplen
    have h0 : (0 : Int) ≤ (getReg s (clamp_reg ra) : Int) := by omega
    have h32 : (getReg s (clamp_reg ra) : Int) < 2 ^ 32 := by
      have := hreg
      omega
    have hgrow := pySetSlice_word_grow s.memory
      (packBytes (getReg s (clamp_reg ra))) (s.sp - 4)
      (by omega) (by omega) (packBytes_length _)
    have hpsh : op_psh s a b = .ok { s with
        sp := s.sp - 4
        memory := pySetSlice s.memory (s.sp - 4) (s.sp - 4 + 4)
          (packBytes (getReg s (clamp_reg ra) : Int)) } := by
      simp only [op_psh, ha, pack_u32_ok _ h0 h32]
    exact ⟨_, hpsh, rfl, rfl, hgrow.1⟩
  · intro s a b addr ha hpc0 hpc32 hsp4 hsplen
    have hgrow := pySetSlice_word_grow s.memory (packBytes s.pc) (s.sp - 4)
      (by omega) (by omega) (packBytes_length _)
    have hcall : op_call s a b = .ok { s with
        sp := s.sp - 4
        memory := pySetSlice s.memory (s.sp - 4) (s.sp - 4 + 4) (packBytes s.pc)
        pc := (addr : Int) } := by
      simp only [op_call, ha, pack_u32_ok _ hpc0 hpc32]
    exact ⟨_, hcall, rfl, rfl, hgrow.1⟩

/-- C1 witness: each of the eight memory-access instructions evaluated on a
concrete 8-byte VM with a 4-byte span reaching past the capacity. -/
theorem C1_amended_oob_reads_crash_writes_extend_witness :
    op_ld (VM_init 8) [0,0,0,6] [0,0,0,0] = .error .structError ∧
    op_ldi { VM_init 8 with regs := [6,0,0,0,0,0,0,0,0,0,0,0,0,0,0,0] }
      [0,0,0,0] [0,0,0,1] = .error .structError ∧
    op_pop { VM_init 8 with sp := 6 } [0,0,0,0] [0,0,0,0] = .error .structError ∧
    op_ret { VM_init 8 with sp := 6 } [0,0,0,0] [0,0,0,0] = .error .structError ∧
    (∃ t, op_dr (VM_init 8) [0,0,0,0] [0,0,0,6] = .ok t ∧
      t.running = (VM_init 8).running ∧ t.regs = (VM_init 8).regs ∧
      t.memory.length = min 6 (VM_init 8).memory.length + 4 ∧
      (VM_init 8).memory.length < t.memory.length) ∧
    (∃ t, op_sti { VM_init 8 with regs := [0,6,0,0,0,0,0,0,0,0,0,0,0,0,0,0] }
        [0,0,0,0] [0,0,0,1] = .ok t ∧
      t.running = ({ VM_init 8 with
        regs := [0,6,0,0,0,0,0,0,0,0,0,0,0,0,0,0] } : VMState).running ∧
      t.regs = ({ VM_init 8 with
        regs := [0,6,0,0,0,0,0,0,0,0,0,0,0,0,0,0] } : VMState).regs ∧
      ({ VM_init 8 with
        regs := [0,6,0,0,0,0,0,0,0,0,0,0,0,0,0,0] } : VMState).memory.length <
        t.memory.length) ∧
    (∃ t, op_psh { VM_init 8 with sp := 10 } [0,0,0,0] [0,0,0,0] = .ok t ∧
      t.running = ({ VM_init 8 with sp := 10 } : VMState).running ∧
      t.sp = ({ VM_init 8 with sp := 10 } : VMState).sp - 4 ∧
      ({ VM_init 8 with sp := 10 } : VMState).memory.length < t.memory.length) ∧
    (∃ t, op_call { VM_init 8 with sp := 10 } [0,0,0,5] [0,0,0,0] = .ok t ∧
      t.running = ({ VM_init 8 with sp := 10 } : VMState).running ∧
      t.pc = ((5 : Nat) : Int) ∧
      ({ VM_init 8 with sp := 10 } : VMState).memory.length < t.memory.length) := by
  refine ⟨?_, ?_, ?_, ?_, ?_, ?_, ?_, ?_⟩
  · exact C1_amended_oob_reads_crash_writes_extend.1 (VM_init 8)
      [0,0,0,6] [0,0,0,0] 6 (by decide) (by decide) (by decide)
  · exact C1_amended_oob_reads_crash_writes_extend.2.1
      { VM_init 8 with regs := [6,0,0,0,0,0,0,0,0,0,0,0,0,0,0,0] }
      [0,0,0,0] [0,0,0,1] 0 1 (by decide) (by decide) (by decide)
  · exact C1_amended_oob_reads_crash_writes_extend.2.2.1
      { VM_init 8 with sp := 6 } [0,0,0,0] [0,0,0,0] 0
      (by decide) (by decide) (by decide)
  · exact C1_amended_oob_reads_crash_writes_extend.2.2.2.1
      { VM_init 8 with sp := 6 } [0,0,0,0] [0,0,0,0] (by decide) (by decide)
  · exact C1_amended_oob_reads_crash_writes_extend.2.2.2.2.1 (VM_init 8)
      [0,0,0,0] [0,0,0,6] 0 6 (by decide) (by decide) (by decide) (by decide)
  · exact C1_amended_oob_reads_crash_writes_extend.2.2.2.2.2.1
      { VM_init 8 with regs := [0,6,0,0,0,0,0,0,0,0,0,0,0,0,0,0] }
      [0,0,0,0] [0,0,0,1] 0 1 (by decide) (by decide) (by decide) (by decide)
  · exact C1_amended_oob_reads_crash_writes_extend.2.2.2.2.2.2.1
      { VM_init 8 with sp := 10 } [0,0,0,0] [0,0,0,0] 0
      (by decide) (by decide) (by decide) (by decide)
  · exact C1_amended_oob_reads_crash_writes_extend.2.2.2.2.2.2.2
      { VM_init 8 with sp := 10 } [0,0,0,5] [0,0,0,0] 5
      (by decide) (by decide) (by decide) (by decide) (by decide)
